import Mathlib

/-!
Template marketplace: rating aggregation (`assets/js/rating.js`), search
(`assets/js/search.js`), template listing (`assets/js/templates.js`) and
favorites (`assets/js/favorites.js`).

The first part is a shallow embedding of the `RatingSystem` class.  The three in-memory tables
(`ratings`, `reviews`, `userRatings`) are finite maps keyed by template id and
are modelled as functions into `Option`.  The DOM, the storage mirror of the
tables and the `DataManager` push of the rounded average are collaborators of
the class; of these only what the rating code reads (the modal's star buttons
and review text, the stored user id, the clock) and the calls of
`Utils.showNotification` are part of the model.

`submitRating` reads the star buttons with `modal.querySelectorAll`, whose
result is a `NodeList`, and `getCurrentModalRating` calls `filter` on it, which
a `NodeList` does not have.  `getCurrentModalRating` and `submitRating` below
are the two methods on star buttons held in an array (the body of the method
as written); `submitRatingOn` is the call on a modal element, which throws
before that body does anything.
-/

set_option autoImplicit false

/-! ## Definitions -/

/-- Template ids are the string keys of the rating tables. -/
abbrev TemplateId := String

/-- The value of `totalRating / totalVotes`: a JavaScript number that is a
quotient of two integer counters.  The quotient is kept exact. -/
inductive JsNumber where
  | finite (q : ℚ)
  | nan
  | posInfinity
  | negInfinity
deriving DecidableEq

/-- JavaScript `a / b` for integer-valued `a` and `b`: `0 / 0` is `NaN` and a
non-zero numerator over `0` is an infinity of the numerator's sign. -/
def jsDiv (a b : Int) : JsNumber :=
  if b = 0 then
    if a = 0 then JsNumber.nan
    else if 0 < a then JsNumber.posInfinity
    else JsNumber.negInfinity
  else JsNumber.finite ((a : ℚ) / (b : ℚ))

/-- What a key of the `distribution` object holds: nothing (`undefined`),
`NaN`, or an integer count. -/
inductive Count where
  | undefined
  | nan
  | int (z : Int)
deriving DecidableEq

namespace Count

/-- JavaScript `x++` on a stored count: `undefined` and `NaN` become `NaN`. -/
def incr : Count → Count
  | undefined => nan
  | nan => nan
  | int z => int (z + 1)

/-- JavaScript `x--` on a stored count: `undefined` and `NaN` become `NaN`. -/
def decr : Count → Count
  | undefined => nan
  | nan => nan
  | int z => int (z - 1)

/-- Whether the key holds an integer. -/
def isInt : Count → Bool
  | int _ => true
  | _ => false

/-- The integer held by the key (`0` when it holds none). -/
def value : Count → Int
  | int z => z
  | _ => 0

end Count

/-- The per-template aggregate stored in `this.ratings[templateId]`. -/
structure TemplateRating where
  totalRating : Int
  totalVotes : Int
  average : JsNumber
  distribution : Nat → Count

/-- The record stored in `this.userRatings[templateId]`. -/
structure UserRating where
  rating : Nat
  review : String
  timestamp : String
  userId : String
deriving DecidableEq

/-- One entry of `this.reviews[templateId]`. -/
structure Review where
  userId : String
  text : String
  rating : Nat
  timestamp : String
  helpful : Nat
deriving DecidableEq

/-- One call of `Utils.showNotification(message, type)`. -/
structure Notification where
  message : String
  type : String
deriving DecidableEq

/-- What `submitRating` reads from the modal when the star buttons are held
in an array: the `active` flag of each `.star-btn` element, in document order,
and the value of `#review-text`. -/
structure Modal where
  starBtns : List Bool
  reviewValue : String
deriving DecidableEq

/-- The state of a `RatingSystem` instance: its three tables, the user id that
`getCurrentUserId` returns, and the notifications shown so far. -/
structure RatingSystem where
  ratings : TemplateId → Option TemplateRating
  reviews : TemplateId → Option (List Review)
  userRatings : TemplateId → Option UserRating
  currentUserId : String
  shown : List Notification

/-- The characters removed by `String.prototype.trim` (and matched by `\s`). -/
def isJsWhitespace (c : Char) : Bool :=
  decide (c.toNat ∈ [9, 10, 11, 12, 13, 32, 160, 5760, 8232, 8233, 8239, 8287, 12288, 65279])
    || (decide (8192 ≤ c.toNat) && decide (c.toNat ≤ 8202))

/-- JavaScript `s.trim()`. -/
def jsTrim (s : String) : String :=
  String.mk (((s.toList.dropWhile isJsWhitespace).reverse.dropWhile isJsWhitespace).reverse)

/-- The star values the distribution is keyed by. -/
def starValues : List Nat := [1, 2, 3, 4, 5]

/-- The aggregate literal created by `updateTemplateRating` for a template
that has none. -/
def newTemplateRating : TemplateRating where
  totalRating := 0
  totalVotes := 0
  average := JsNumber.finite 0
  distribution := fun k => if k ∈ starValues then Count.int 0 else Count.undefined

namespace RatingSystem

/-- `getCurrentModalRating(starBtns)` for an array `starBtns`: the number of
active star buttons. -/
def getCurrentModalRating (starBtns : List Bool) : Nat :=
  (starBtns.filter fun active => active).length

/-- `getCurrentUserId()`. -/
def getCurrentUserId (s : RatingSystem) : String :=
  s.currentUserId

/-- `getUserRating(templateId)`: the stored rating, `none` for `null`. -/
def getUserRating (s : RatingSystem) (templateId : TemplateId) : Option Nat :=
  match s.userRatings templateId with
  | some userRating => some userRating.rating
  | none => none

/-- JavaScript truthiness of what `getUserRating` returns: `null` and `0` are
falsy; the result is the rating when it is truthy. -/
def truthyRating : Option Nat → Option Nat
  | some 0 => none
  | some r => some r
  | none => none

/-- `updateTemplateRating(templateId, newRating)`. -/
def updateTemplateRating (s : RatingSystem) (templateId : TemplateId) (newRating : Nat) :
    RatingSystem :=
  let templateRating : TemplateRating :=
    match s.ratings templateId with
    | some existing => existing
    | none => newTemplateRating
  let previousUserRating := s.getUserRating templateId
  let counted : TemplateRating :=
    match truthyRating previousUserRating with
    | some previous =>
      { templateRating with
        totalRating := templateRating.totalRating - (previous : Int) + (newRating : Int)
        distribution :=
          let d := Function.update templateRating.distribution previous
            (templateRating.distribution previous).decr
          Function.update d newRating (d newRating).incr }
    | none =>
      { templateRating with
        totalRating := templateRating.totalRating + (newRating : Int)
        totalVotes := templateRating.totalVotes + 1
        distribution := Function.update templateRating.distribution newRating
          (templateRating.distribution newRating).incr }
  { s with
    ratings := Function.update s.ratings templateId
      (some { counted with average := jsDiv counted.totalRating counted.totalVotes }) }

/-- `saveReview(templateId, reviewText, rating)`; `now` is the clock reading. -/
def saveReview (s : RatingSystem) (templateId : TemplateId) (reviewText : String)
    (rating : Nat) (now : String) : RatingSystem :=
  let existing : List Review :=
    match s.reviews templateId with
    | some list => list
    | none => []
  let userId := s.getCurrentUserId
  let others := existing.filter fun review => decide (review.userId ≠ userId)
  { s with
    reviews := Function.update s.reviews templateId
      (some (others ++
        [{ userId := userId, text := reviewText, rating := rating, timestamp := now,
           helpful := 0 }])) }

/-- The body of `submitRating(templateId, modal)` with the star buttons held
in an array; `now` is the clock reading.  On a modal element the call does not
get this far: see `submitRatingOn`. -/
def submitRating (s : RatingSystem) (templateId : TemplateId) (modal : Modal)
    (now : String) : RatingSystem :=
  let rating := getCurrentModalRating modal.starBtns
  let reviewText := jsTrim modal.reviewValue
  if rating = 0 then
    { s with shown := s.shown ++ [{ message := "Please select a rating", type := "warning" }] }
  else
    let s1 : RatingSystem :=
      { s with
        userRatings := Function.update s.userRatings templateId
          (some { rating := rating, review := reviewText, timestamp := now,
                  userId := s.getCurrentUserId }) }
    let s2 := s1.updateTemplateRating templateId rating
    let s3 := if reviewText ≠ "" then s2.saveReview templateId reviewText rating now else s2
    { s3 with
      shown := s3.shown ++ [{ message := "Rating submitted successfully!", type := "success" }] }

/-- `deleteRating(templateId)`. -/
def deleteRating (s : RatingSystem) (templateId : TemplateId) : RatingSystem :=
  match truthyRating (s.getUserRating templateId) with
  | none => s
  | some userRating =>
    let ratings' : TemplateId → Option TemplateRating :=
      match s.ratings templateId with
      | some templateRating =>
        let totalVotes := templateRating.totalVotes - 1
        let totalRating := templateRating.totalRating - (userRating : Int)
        Function.update s.ratings templateId
          (some
            { totalRating := totalRating
              totalVotes := totalVotes
              distribution := Function.update templateRating.distribution userRating
                (templateRating.distribution userRating).decr
              average := if 0 < totalVotes then jsDiv totalRating totalVotes
                else JsNumber.finite 0 })
      | none => s.ratings
    let userId := s.getCurrentUserId
    let reviews' : TemplateId → Option (List Review) :=
      match s.reviews templateId with
      | some list =>
        Function.update s.reviews templateId
          (some (list.filter fun review => decide (review.userId ≠ userId)))
      | none => s.reviews
    { s with
      userRatings := Function.update s.userRatings templateId none
      ratings := ratings'
      reviews := reviews'
      shown := s.shown ++ [{ message := "Rating deleted", type := "success" }] }

end RatingSystem

/-- The aggregate invariant of the data model: the five star keys hold
integers, their sum is `totalVotes` and their star-weighted sum is
`totalRating`. -/
def TemplateRating.Consistent (a : TemplateRating) : Prop :=
  (∀ k ∈ starValues, (a.distribution k).isInt = true) ∧
  (starValues.map fun (k : Nat) => (a.distribution k).value).sum = a.totalVotes ∧
  (starValues.map fun (k : Nat) => (k : Int) * (a.distribution k).value).sum = a.totalRating

instance (a : TemplateRating) : Decidable a.Consistent := by
  unfold TemplateRating.Consistent; infer_instance

namespace RatingSystem

/-- Every stored aggregate satisfies the aggregate invariant. -/
def AggregatesConsistent (s : RatingSystem) : Prop :=
  ∀ templateId a, s.ratings templateId = some a → a.Consistent

/-- Every stored user rating is a star value of the data model (1 to 5). -/
def UserRatingsInRange (s : RatingSystem) : Prop :=
  ∀ templateId u, s.userRatings templateId = some u → 1 ≤ u.rating ∧ u.rating ≤ 5

/-- The store of a first visit: every table is empty. -/
def emptyStore (userId : String) : RatingSystem where
  ratings := fun _ => none
  reviews := fun _ => none
  userRatings := fun _ => none
  currentUserId := userId
  shown := []

/-- Another user of the same aggregate tables: the spec's several users are
several visitors, each with an own user id and an own `userRatings` table,
rating against the same `ratings` and `reviews`. -/
def asUser (s : RatingSystem) (userId : String) (own : TemplateId → Option UserRating) :
    RatingSystem :=
  { s with currentUserId := userId, userRatings := own }

end RatingSystem

/-- A modal with the five star buttons of `showRatingModal`, the first `n`
of them active, and the given review text. -/
def starModal (n : Nat) (reviewValue : String) : Modal where
  starBtns := [decide (1 ≤ n), decide (2 ≤ n), decide (3 ≤ n), decide (4 ≤ n), decide (5 ≤ n)]
  reviewValue := reviewValue

/-- An aggregate holding one vote of three stars. -/
def oneVoteOfThree : TemplateRating where
  totalRating := 3
  totalVotes := 1
  average := JsNumber.finite 3
  distribution := fun k => if k = 3 then Count.int 1 else
    if k ∈ starValues then Count.int 0 else Count.undefined

/-- An aggregate holding one vote of one star. -/
def oneVoteOfOne : TemplateRating where
  totalRating := 1
  totalVotes := 1
  average := JsNumber.finite 1
  distribution := fun k => if k = 1 then Count.int 1 else
    if k ∈ starValues then Count.int 0 else Count.undefined

namespace RatingSystem

/-- A store in which the current user has rated `modern-landing` three stars
and the aggregate holds exactly that vote. -/
def ratedStore : RatingSystem where
  ratings := fun t => if t = "modern-landing" then some oneVoteOfThree else none
  reviews := fun _ => none
  userRatings := fun t =>
    if t = "modern-landing" then
      some { rating := 3, review := "", timestamp := "2024-01-01T00:00:00.000Z",
             userId := "user_a" }
    else none
  currentUserId := "user_a"
  shown := []

/-- A store in which `modern-landing` has one vote of three stars by somebody
else and the current user has rated nothing. -/
def visitorStore : RatingSystem where
  ratings := fun t => if t = "modern-landing" then some oneVoteOfThree else none
  reviews := fun _ => none
  userRatings := fun _ => none
  currentUserId := "user_b"
  shown := []

/-- A store in which `modern-landing` has one vote of one star by somebody
else, while the current user holds a five-star rating for it. -/
def driftedStore : RatingSystem where
  ratings := fun t => if t = "modern-landing" then some oneVoteOfOne else none
  reviews := fun _ => none
  userRatings := fun t =>
    if t = "modern-landing" then
      some { rating := 5, review := "", timestamp := "2024-01-01T00:00:00.000Z",
             userId := "user_b" }
    else none
  currentUserId := "user_b"
  shown := []

end RatingSystem

namespace RatingSystem

/-- The spec's scenario, first half: starting from the empty store three
users rate `modern-landing` with 3, 4 and 5 stars. -/
def threeUsersRated : RatingSystem :=
  let s1 := (emptyStore "user_1").submitRating "modern-landing" (starModal 3 "") "t1"
  let s2 := (s1.asUser "user_2" fun _ => none).submitRating "modern-landing"
    (starModal 4 "") "t2"
  (s2.asUser "user_3" fun _ => none).submitRating "modern-landing" (starModal 5 "") "t3"

/-- The spec's scenario, second half: the user who rated 3 comes back with
the own `userRatings` table and resubmits 5 stars. -/
def firstUserResubmitted : RatingSystem :=
  (threeUsersRated.asUser "user_1"
      ((emptyStore "user_1").submitRating "modern-landing" (starModal 3 "") "t1").userRatings
    ).submitRating "modern-landing" (starModal 5 "") "t4"

end RatingSystem

namespace RatingSystem

/-- A store in which `modern-landing` has two reviews: one by somebody else
and one by the current user that three visitors found helpful. -/
def reviewedStore : RatingSystem where
  ratings := fun _ => none
  reviews := fun t =>
    if t = "modern-landing" then
      some [{ userId := "user_a", text := "Nice", rating := 4,
              timestamp := "2024-01-01T00:00:00.000Z", helpful := 3 },
            { userId := "user_b", text := "Solid", rating := 5,
              timestamp := "2024-01-02T00:00:00.000Z", helpful := 1 }]
    else none
  userRatings := fun _ => none
  currentUserId := "user_a"
  shown := []

end RatingSystem

/-! ### Search (`assets/js/search.js`)

`String.prototype.toLowerCase` is a parameter `toLowerCase` of the search
functions: what is proved holds for every lower-casing function, the one of
JavaScript included.  `asciiToLowerCase` is the instance used on concrete
ASCII text. -/

/-- The fields of a template record that search and filtering read.
`createdAt` is the instant `new Date(template.createdAt)` denotes, in
milliseconds; `rating` is `template.rating || 0` in tenths of a star (the
rating is stored rounded to one decimal). -/
structure Template where
  id : String
  name : String
  description : String
  category : String
  tags : List String
  technologies : List String
  difficulty : String
  downloads : Nat
  featured : Bool
  createdAt : Int
  rating : Nat := 0
deriving DecidableEq

/-- A category record of `DataManager.getCategories()`. -/
structure Category where
  id : String
  name : String
deriving DecidableEq

/-- An entry of `this.searchHistory`. -/
structure SearchHistoryItem where
  query : String
  timestamp : String
deriving DecidableEq

/-- Lower-casing of ASCII text: the letters `A`..`Z` are mapped to `a`..`z`,
every other character is kept. -/
def asciiToLowerCase (s : String) : String :=
  String.mk (s.toList.map fun c =>
    if 65 ≤ c.toNat ∧ c.toNat ≤ 90 then Char.ofNat (c.toNat + 32) else c)

/-- JavaScript `s.length`: the number of UTF-16 code units. -/
def jsLength (s : String) : Nat :=
  (s.toList.map fun c => if 65536 ≤ c.toNat then 2 else 1).sum

/-- Whether the first character list begins with the second. -/
def startsWithChars : List Char → List Char → Bool
  | _, [] => true
  | [], _ :: _ => false
  | c :: cs, d :: ds => decide (c = d) && startsWithChars cs ds

/-- Whether the second character list occurs in the first as a contiguous
run. -/
def includesChars : List Char → List Char → Bool
  | [], t => startsWithChars [] t
  | c :: cs, t => startsWithChars (c :: cs) t || includesChars cs t

/-- JavaScript `s.includes(t)`. -/
def jsIncludes (s t : String) : Bool :=
  includesChars s.toList t.toList

/-- Splitting a character list at every separator character; two adjacent
separators and a separator at either end give an empty piece. -/
def splitChars (isSeparator : Char → Bool) : List Char → List (List Char)
  | [] => [[]]
  | c :: cs =>
    if isSeparator c then [] :: splitChars isSeparator cs
    else
      match splitChars isSeparator cs with
      | [] => [[c]]
      | piece :: pieces => (c :: piece) :: pieces

/-- JavaScript `s.split(separator)` for a one-character separator. -/
def jsSplit (s : String) (separator : Char) : List String :=
  (splitChars (fun c => decide (c = separator)) s.toList).map String.mk

/-- JavaScript `array.sort(compare)`: the sort is stable, so for a consistent
comparator the result is the insertion of every element, from the last to the
first, before the first element it does not have to follow. -/
def jsSort {α : Type} (compare : α → α → Int) (l : List α) : List α :=
  l.insertionSort fun a b => compare a b ≤ 0

/-- The elements of `[...new Set(list)]`: the first occurrence of every
string, in order. -/
def uniqueStrings : List String → List String
  | [] => []
  | x :: xs => x :: (uniqueStrings xs).filter fun y => decide (y ≠ x)

/-- A search result `{ ...template, searchScore }`. -/
structure ScoredTemplate where
  template : Template
  searchScore : Nat
deriving DecidableEq

/-- The `type` of a suggestion. -/
inductive SuggestionType where
  | template
  | category
  | tag
  | technology
  | history
deriving DecidableEq

/-- The `action` closure of a suggestion, by the method it calls. -/
inductive SuggestionAction where
  | selectTemplate (templateId : String)
  | selectCategory (categoryId : String)
  | selectTag (tag : String)
  | selectTechnology (tech : String)
  | selectHistoryItem (query : String)
deriving DecidableEq

/-- An entry of the list built by `generateSuggestions`. -/
structure Suggestion where
  type : SuggestionType
  text : String
  category : Option String
  count : Option Nat
  timestamp : Option String
  icon : String
  action : SuggestionAction
deriving DecidableEq

/-- What `handleSearch` does with a query: it clears the search, or it ranks
the templates and then calls `this.displaySearchResults`, a method that no
class defines, so that the call throws a `TypeError` with the ranked results
computed and not shown. -/
inductive SearchOutcome where
  | cleared
  | threw (ranked : List ScoredTemplate)
deriving DecidableEq

namespace SearchManager

/-- The `searchTerms` of `performAdvancedSearch`:
`query.toLowerCase().split(' ').filter(term => term.length > 0)`. -/
def searchTerms (toLowerCase : String → String) (query : String) : List String :=
  (jsSplit (toLowerCase query) ' ').filter fun term => decide (jsLength term > 0)

/-- The score that the `map` callback of `performAdvancedSearch` computes
for one template. -/
def scoreTemplate (toLowerCase : String → String) (query : String) (searchTerms : List String)
    (template : Template) : Nat :=
  let score := 0
  let score :=
    if jsIncludes (toLowerCase template.name) (toLowerCase query) then score + 100 else score
  let score :=
    if jsIncludes (toLowerCase template.description) (toLowerCase query) then score + 50
    else score
  let score := template.tags.foldl
    (fun score tag =>
      if jsIncludes (toLowerCase tag) (toLowerCase query) then score + 30 else score) score
  let score :=
    if jsIncludes (toLowerCase template.category) (toLowerCase query) then score + 40
    else score
  let score := template.technologies.foldl
    (fun score tech =>
      if jsIncludes (toLowerCase tech) (toLowerCase query) then score + 25 else score) score
  let score := searchTerms.foldl
    (fun score term =>
      let score := if jsIncludes (toLowerCase template.name) term then score + 20 else score
      let score :=
        if jsIncludes (toLowerCase template.description) term then score + 10 else score
      template.tags.foldl
        (fun score tag => if jsIncludes (toLowerCase tag) term then score + 15 else score)
        score) score
  let score := if template.featured then score + 10 else score
  let score := if template.downloads > 1000 then score + 5 else score
  score

/-- `performAdvancedSearch(query)` over the templates of
`DataManager.getTemplates()`. -/
def performAdvancedSearch (toLowerCase : String → String) (templates : List Template)
    (query : String) : List ScoredTemplate :=
  let searchTerms := searchTerms toLowerCase query
  let scoredResults : List ScoredTemplate := templates.map fun template =>
    { template := template
      searchScore := scoreTemplate toLowerCase query searchTerms template }
  jsSort (fun a b => (b.searchScore : Int) - (a.searchScore : Int))
    (scoredResults.filter fun result => decide (result.searchScore > 0))

/-- `handleSearch(query)`: the search is cleared for a query of fewer than two
code units; otherwise the templates are ranked and the call of the undefined
`displaySearchResults` throws.  The call of `trackSearch`, which records the
query in the history and the analytics and does not touch the results, is
left out. -/
def handleSearch (toLowerCase : String → String) (templates : List Template)
    (query : String) : SearchOutcome :=
  if jsLength query < 2 then SearchOutcome.cleared
  else SearchOutcome.threw (performAdvancedSearch toLowerCase templates query)

/-- The `typePriority` table of `generateSuggestions`. -/
def typePriority : SuggestionType → Int
  | SuggestionType.template => 1
  | SuggestionType.category => 2
  | SuggestionType.tag => 3
  | SuggestionType.technology => 4
  | SuggestionType.history => 5

/-- The comparator that `generateSuggestions` sorts with. -/
def compareSuggestions (toLowerCase : String → String) (query : String) (a b : Suggestion) :
    Int :=
  let aExact := decide (toLowerCase a.text = toLowerCase query)
  let bExact := decide (toLowerCase b.text = toLowerCase query)
  if aExact && !bExact then -1
  else if !aExact && bExact then 1
  else typePriority a.type - typePriority b.type

/-- `generateSuggestions(query)` over the templates and categories of the
`DataManager` and the search history. -/
def generateSuggestions (toLowerCase : String → String) (templates : List Template)
    (categories : List Category) (searchHistory : List SearchHistoryItem) (query : String) :
    List Suggestion :=
  let templateSuggestions : List Suggestion :=
    (templates.filter fun template =>
      jsIncludes (toLowerCase template.name) (toLowerCase query)).map fun template =>
      { type := SuggestionType.template, text := template.name,
        category := some template.category, count := none, timestamp := none,
        icon := "file-text", action := SuggestionAction.selectTemplate template.id }
  let categorySuggestions : List Suggestion :=
    (categories.filter fun category =>
      jsIncludes (toLowerCase category.name) (toLowerCase query)).map fun category =>
      { type := SuggestionType.category, text := category.name, category := none,
        count := some (templates.filter fun t => decide (t.category = category.id)).length,
        timestamp := none, icon := "folder",
        action := SuggestionAction.selectCategory category.id }
  let allTags := uniqueStrings (templates.flatMap fun t => t.tags)
  let tagSuggestions : List Suggestion :=
    (allTags.filter fun tag => jsIncludes (toLowerCase tag) (toLowerCase query)).map fun tag =>
      { type := SuggestionType.tag, text := tag, category := none,
        count := some (templates.filter fun t =>
          t.tags.any fun tTag => jsIncludes (toLowerCase tTag) (toLowerCase tag)).length,
        timestamp := none, icon := "tag", action := SuggestionAction.selectTag tag }
  let allTech := uniqueStrings (templates.flatMap fun t => t.technologies)
  let technologySuggestions : List Suggestion :=
    (allTech.filter fun tech => jsIncludes (toLowerCase tech) (toLowerCase query)).map
      fun tech =>
      { type := SuggestionType.technology, text := tech, category := none,
        count := some (templates.filter fun t =>
          t.technologies.any fun tTech =>
            jsIncludes (toLowerCase tTech) (toLowerCase tech)).length,
        timestamp := none, icon := "code", action := SuggestionAction.selectTechnology tech }
  let historySuggestions : List Suggestion :=
    (searchHistory.filter fun historyItem =>
      jsIncludes (toLowerCase historyItem.query) (toLowerCase query)).map fun historyItem =>
      { type := SuggestionType.history, text := historyItem.query, category := none,
        count := none, timestamp := some historyItem.timestamp, icon := "clock",
        action := SuggestionAction.selectHistoryItem historyItem.query }
  let suggestions := templateSuggestions ++ categorySuggestions ++ tagSuggestions ++
    technologySuggestions ++ historySuggestions
  jsSort (compareSuggestions toLowerCase query) (suggestions.take 10)

/-- `updateSearchSuggestions(query)`: `none` when the suggestions are hidden
(a query of fewer than two code units), otherwise the list handed to
`displaySuggestions`. -/
def updateSearchSuggestions (toLowerCase : String → String) (templates : List Template)
    (categories : List Category) (searchHistory : List SearchHistoryItem) (query : String) :
    Option (List Suggestion) :=
  if jsLength query < 2 then none
  else some (generateSuggestions toLowerCase templates categories searchHistory query)

end SearchManager

namespace SearchManager

/-- The additive reference sum of the spec for one template, the query text
and the tokens of the text: 100 for the text in the name, 50 in the
description, 40 in the category id, 30 per tag and 25 per technology
containing it; per token 20 in the name, 10 in the description and 15 per tag
containing the token; 10 if featured and 5 for more than 1000 downloads. -/
def referenceScore (toLowerCase : String → String) (query : String) (tokens : List String)
    (template : Template) : Nat :=
  (if jsIncludes (toLowerCase template.name) (toLowerCase query) then 100 else 0)
  + (if jsIncludes (toLowerCase template.description) (toLowerCase query) then 50 else 0)
  + (if jsIncludes (toLowerCase template.category) (toLowerCase query) then 40 else 0)
  + 30 * (template.tags.filter fun tag =>
      jsIncludes (toLowerCase tag) (toLowerCase query)).length
  + 25 * (template.technologies.filter fun tech =>
      jsIncludes (toLowerCase tech) (toLowerCase query)).length
  + (tokens.map fun token =>
      (if jsIncludes (toLowerCase template.name) token then 20 else 0)
      + (if jsIncludes (toLowerCase template.description) token then 10 else 0)
      + 15 * (template.tags.filter fun tag => jsIncludes (toLowerCase tag) token).length).sum
  + (if template.featured then 10 else 0)
  + (if template.downloads > 1000 then 5 else 0)

/-- The whitespace-delimited tokens of a text, zero-length tokens excluded,
as the spec words the tokens: every whitespace character separates. -/
def whitespaceTokens (text : String) : List String :=
  ((splitChars isJsWhitespace text.toList).map String.mk).filter fun token =>
    decide (jsLength token > 0)

/-- The flat popularity boost of a template: 10 if featured plus 5 for more
than 1000 downloads. -/
def popularityBoost (template : Template) : Nat :=
  (if template.featured then 10 else 0) + (if template.downloads > 1000 then 5 else 0)

/-- Whether neither the lower-cased query nor any of its search terms occurs
in the lower-cased name, description, category, tags or technologies of any
template. -/
def matchesNowhere (toLowerCase : String → String) (templates : List Template)
    (query : String) : Bool :=
  templates.all fun template =>
    (toLowerCase query :: searchTerms toLowerCase query).all fun text =>
      !jsIncludes (toLowerCase template.name) text
      && !jsIncludes (toLowerCase template.description) text
      && !jsIncludes (toLowerCase template.category) text
      && (template.tags.all fun tag => !jsIncludes (toLowerCase tag) text)
      && (template.technologies.all fun tech => !jsIncludes (toLowerCase tech) text)

end SearchManager

/-- The record of the spec's scoring scenario: name `Modern Landing Page`,
tags `modern` and `responsive`, 1567 downloads, featured; the other fields
are those of `tpl-001` in `data.js`, with an empty description. -/
def specLandingPage : Template where
  id := "tpl-001"
  name := "Modern Landing Page"
  description := ""
  category := "landing-pages"
  tags := ["modern", "responsive"]
  technologies := ["HTML", "CSS", "JavaScript"]
  difficulty := "easy"
  downloads := 1567
  featured := true
  createdAt := 1736937000000

/-- A template that is neither featured nor popular. -/
def plainPortfolio : Template where
  id := "tpl-002"
  name := "Creative Portfolio"
  description := "Showcase for designers"
  category := "portfolios"
  tags := ["portfolio", "creative"]
  technologies := ["HTML", "CSS"]
  difficulty := "medium"
  downloads := 120
  featured := false
  createdAt := 1737000000000

/-- The values of the feature checkboxes of the advanced filters. -/
inductive Feature where
  | featured
  | popular
  | recent
deriving DecidableEq

/-- The `filters` object built by `applyAdvancedFilters`. -/
structure AdvancedFilters where
  difficulties : List String
  technologies : List String
  tags : List String
  features : List Feature
deriving DecidableEq

/-- A template record as it may come out of storage: `description`, `tags`,
`technologies` and `downloads` may be absent (`none` for `undefined`). -/
structure RawTemplate where
  id : String
  name : String
  description : Option String
  category : String
  tags : Option (List String)
  technologies : Option (List String)
  difficulty : String
  downloads : Option Nat
  featured : Bool
  createdAt : Int
deriving DecidableEq

/-- The record with every field present. -/
def Template.toRaw (template : Template) : RawTemplate where
  id := template.id
  name := template.name
  description := some template.description
  category := template.category
  tags := some template.tags
  technologies := some template.technologies
  difficulty := template.difficulty
  downloads := some template.downloads
  featured := template.featured
  createdAt := template.createdAt

/-- The exception of a property access on `undefined`. -/
inductive JsError where
  | typeError
deriving DecidableEq

namespace SearchManager

/-- The `featureChecks` table of `executeAdvancedSearch`; `now` is
`Date.now()`. -/
def featureChecks (now : Int) (template : Template) : Feature → Bool
  | Feature.featured => template.featured
  | Feature.popular => decide (template.downloads ≥ 1000)
  | Feature.recent => decide (template.createdAt > now - 7 * 24 * 60 * 60 * 1000)

/-- The callback of the `filter` of `executeAdvancedSearch`. -/
def passesFilters (filters : AdvancedFilters) (now : Int) (template : Template) : Bool :=
  if filters.difficulties.length > 0 ∧ ¬ template.difficulty ∈ filters.difficulties then false
  else if filters.technologies.length > 0 ∧
      ¬ (filters.technologies.any fun tech => decide (tech ∈ template.technologies)) = true then
    false
  else if filters.tags.length > 0 ∧
      ¬ (filters.tags.any fun tag => decide (tag ∈ template.tags)) = true then
    false
  else if filters.features.length > 0 ∧
      ¬ (filters.features.any fun feature => featureChecks now template feature) = true then
    false
  else true

/-- `executeAdvancedSearch(filters)`: the `filteredTemplates` it hands to the
template manager; `now` is `Date.now()`. -/
def executeAdvancedSearch (templates : List Template) (filters : AdvancedFilters) (now : Int) :
    List Template :=
  templates.filter (passesFilters filters now)

/-- Whether every non-empty filter group accepts the template, in the words
of the spec: the difficulty is one of the selected values, the template
shares a selected technology, shares a selected tag, and some selected feature
predicate holds (featured, at least 1000 downloads, created within the last
seven days); an empty group accepts. -/
def AcceptedByEveryGroup (filters : AdvancedFilters) (now : Int) (template : Template) : Prop :=
  (filters.difficulties = [] ∨ template.difficulty ∈ filters.difficulties) ∧
  (filters.technologies = [] ∨ ∃ tech ∈ filters.technologies, tech ∈ template.technologies) ∧
  (filters.tags = [] ∨ ∃ tag ∈ filters.tags, tag ∈ template.tags) ∧
  (filters.features = [] ∨ ∃ feature ∈ filters.features,
    match feature with
    | Feature.featured => template.featured = true
    | Feature.popular => template.downloads ≥ 1000
    | Feature.recent => template.createdAt > now - 7 * 24 * 60 * 60 * 1000)

/-- The score of the `map` callback of `performAdvancedSearch` on a record
that may lack fields: `template.description.toLowerCase()`,
`template.tags.forEach` and `template.technologies.forEach` throw on
`undefined`. -/
def scoreRawTemplate (toLowerCase : String → String) (query : String)
    (searchTerms : List String) (template : RawTemplate) : Except JsError Nat :=
  let score := 0
  let score :=
    if jsIncludes (toLowerCase template.name) (toLowerCase query) then score + 100 else score
  match template.description with
  | none => Except.error JsError.typeError
  | some description =>
    let score :=
      if jsIncludes (toLowerCase description) (toLowerCase query) then score + 50 else score
    match template.tags with
    | none => Except.error JsError.typeError
    | some tags =>
      let score := tags.foldl
        (fun score tag =>
          if jsIncludes (toLowerCase tag) (toLowerCase query) then score + 30 else score) score
      let score :=
        if jsIncludes (toLowerCase template.category) (toLowerCase query) then score + 40
        else score
      match template.technologies with
      | none => Except.error JsError.typeError
      | some technologies =>
        let score := technologies.foldl
          (fun score tech =>
            if jsIncludes (toLowerCase tech) (toLowerCase query) then score + 25 else score)
          score
        let score := searchTerms.foldl
          (fun score term =>
            let score :=
              if jsIncludes (toLowerCase template.name) term then score + 20 else score
            let score :=
              if jsIncludes (toLowerCase description) term then score + 10 else score
            tags.foldl
              (fun score tag => if jsIncludes (toLowerCase tag) term then score + 15 else score)
              score) score
        let score := if template.featured then score + 10 else score
        let score :=
          match template.downloads with
          | some downloads => if downloads > 1000 then score + 5 else score
          | none => score
        Except.ok score

/-- The `map` of `performAdvancedSearch` over records that may lack fields:
the first record whose callback throws ends the call. -/
def scoreAllRaw (toLowerCase : String → String) (query : String) (searchTerms : List String) :
    List RawTemplate → Except JsError (List (RawTemplate × Nat))
  | [] => Except.ok []
  | template :: templates =>
    match scoreRawTemplate toLowerCase query searchTerms template with
    | Except.error e => Except.error e
    | Except.ok score =>
      match scoreAllRaw toLowerCase query searchTerms templates with
      | Except.error e => Except.error e
      | Except.ok rest => Except.ok ((template, score) :: rest)

/-- `performAdvancedSearch(query)` over records that may lack fields. -/
def performAdvancedSearchRaw (toLowerCase : String → String) (templates : List RawTemplate)
    (query : String) : Except JsError (List (RawTemplate × Nat)) :=
  match scoreAllRaw toLowerCase query (searchTerms toLowerCase query) templates with
  | Except.error e => Except.error e
  | Except.ok scoredResults =>
    Except.ok (jsSort (fun a b => (b.2 : Int) - (a.2 : Int))
      (scoredResults.filter fun result => decide (result.2 > 0)))

/-- The callback of the `filter` of `executeAdvancedSearch` on a record that
may lack fields: `template.technologies.includes` and `template.tags.includes`
throw on `undefined` when the group has a selected value; a missing
`downloads` counts as 0. -/
def passesFiltersRaw (filters : AdvancedFilters) (now : Int) (template : RawTemplate) :
    Except JsError Bool :=
  if filters.difficulties.length > 0 ∧ ¬ template.difficulty ∈ filters.difficulties then
    Except.ok false
  else
    let hasMatchingTech : Except JsError Bool :=
      if filters.technologies.length > 0 then
        match template.technologies with
        | none => Except.error JsError.typeError
        | some technologies =>
          Except.ok (filters.technologies.any fun tech => decide (tech ∈ technologies))
      else Except.ok true
    match hasMatchingTech with
    | Except.error e => Except.error e
    | Except.ok false => Except.ok false
    | Except.ok true =>
      let hasMatchingTag : Except JsError Bool :=
        if filters.tags.length > 0 then
          match template.tags with
          | none => Except.error JsError.typeError
          | some tags => Except.ok (filters.tags.any fun tag => decide (tag ∈ tags))
        else Except.ok true
      match hasMatchingTag with
      | Except.error e => Except.error e
      | Except.ok false => Except.ok false
      | Except.ok true =>
        if filters.features.length > 0 ∧
            ¬ (filters.features.any fun feature =>
              match feature with
              | Feature.featured => template.featured
              | Feature.popular => decide ((template.downloads.getD 0) ≥ 1000)
              | Feature.recent =>
                decide (template.createdAt > now - 7 * 24 * 60 * 60 * 1000)) = true then
          Except.ok false
        else Except.ok true

/-- `executeAdvancedSearch(filters)` over records that may lack fields: the
first record whose callback throws ends the call. -/
def executeAdvancedSearchRaw (filters : AdvancedFilters) (now : Int) :
    List RawTemplate → Except JsError (List RawTemplate)
  | [] => Except.ok []
  | template :: templates =>
    match passesFiltersRaw filters now template with
    | Except.error e => Except.error e
    | Except.ok keep =>
      match executeAdvancedSearchRaw filters now templates with
      | Except.error e => Except.error e
      | Except.ok rest => Except.ok (if keep then template :: rest else rest)

end SearchManager

/-- The landing page record of the spec without its `tags` field. -/
def untaggedLandingPage : RawTemplate :=
  { specLandingPage.toRaw with tags := none }

namespace SearchManager

/-- The `suggestions` array of `generateSuggestions` before it is limited
and sorted: the matching template names, category names, distinct tags,
distinct technologies and history entries, in this order. -/
def suggestionCandidates (toLowerCase : String → String) (templates : List Template)
    (categories : List Category) (searchHistory : List SearchHistoryItem) (query : String) :
    List Suggestion :=
  let templateSuggestions : List Suggestion :=
    (templates.filter fun template =>
      jsIncludes (toLowerCase template.name) (toLowerCase query)).map fun template =>
      { type := SuggestionType.template, text := template.name,
        category := some template.category, count := none, timestamp := none,
        icon := "file-text", action := SuggestionAction.selectTemplate template.id }
  let categorySuggestions : List Suggestion :=
    (categories.filter fun category =>
      jsIncludes (toLowerCase category.name) (toLowerCase query)).map fun category =>
      { type := SuggestionType.category, text := category.name, category := none,
        count := some (templates.filter fun t => decide (t.category = category.id)).length,
        timestamp := none, icon := "folder",
        action := SuggestionAction.selectCategory category.id }
  let allTags := uniqueStrings (templates.flatMap fun t => t.tags)
  let tagSuggestions : List Suggestion :=
    (allTags.filter fun tag => jsIncludes (toLowerCase tag) (toLowerCase query)).map fun tag =>
      { type := SuggestionType.tag, text := tag, category := none,
        count := some (templates.filter fun t =>
          t.tags.any fun tTag => jsIncludes (toLowerCase tTag) (toLowerCase tag)).length,
        timestamp := none, icon := "tag", action := SuggestionAction.selectTag tag }
  let allTech := uniqueStrings (templates.flatMap fun t => t.technologies)
  let technologySuggestions : List Suggestion :=
    (allTech.filter fun tech => jsIncludes (toLowerCase tech) (toLowerCase query)).map
      fun tech =>
      { type := SuggestionType.technology, text := tech, category := none,
        count := some (templates.filter fun t =>
          t.technologies.any fun tTech =>
            jsIncludes (toLowerCase tTech) (toLowerCase tech)).length,
        timestamp := none, icon := "code", action := SuggestionAction.selectTechnology tech }
  let historySuggestions : List Suggestion :=
    (searchHistory.filter fun historyItem =>
      jsIncludes (toLowerCase historyItem.query) (toLowerCase query)).map fun historyItem =>
      { type := SuggestionType.history, text := historyItem.query, category := none,
        count := none, timestamp := some historyItem.timestamp, icon := "clock",
        action := SuggestionAction.selectHistoryItem historyItem.query }
  templateSuggestions ++ categorySuggestions ++ tagSuggestions ++
    technologySuggestions ++ historySuggestions

end SearchManager

/-- Ten templates whose names contain `blog`, none of them equal to it. -/
def tenBlogTemplates : List Template :=
  ["Blog A", "Blog B", "Blog C", "Blog D", "Blog E", "Blog F", "Blog G", "Blog H", "Blog I",
    "Blog J"].map fun name => { plainPortfolio with name := name }

/-! ### Template listing (`assets/js/templates.js`) -/

/-- The `filters` argument of `searchTemplates`: `{ category, sort }`. -/
structure SearchFilters where
  category : String
  sort : String
deriving DecidableEq

/-- What a call of `searchTemplates` leaves: the returned array and the
array held by `this.templates` afterwards. -/
structure SearchTemplatesResult where
  returned : List Template
  templates : List Template
deriving DecidableEq

namespace TemplateManager

/-- The callback of the text filter of `searchTemplates`: the search term in
the name, the description, some tag or some technology. -/
def matchesSearchTerm (toLowerCase : String → String) (searchTerm : String)
    (template : Template) : Bool :=
  jsIncludes (toLowerCase template.name) searchTerm
  || jsIncludes (toLowerCase template.description) searchTerm
  || (template.tags.any fun tag => jsIncludes (toLowerCase tag) searchTerm)
  || (template.technologies.any fun tech => jsIncludes (toLowerCase tech) searchTerm)

/-- The templates that pass the two filters of `searchTemplates`: the text
filter when the query is not blank, then the category filter when a category
is selected. -/
def keptTemplates (toLowerCase : String → String) (thisTemplates : List Template)
    (query : String) (filters : SearchFilters) : List Template :=
  let templates :=
    if decide (query ≠ "") && decide (jsTrim query ≠ "") then
      thisTemplates.filter (matchesSearchTerm toLowerCase (toLowerCase query))
    else thisTemplates
  if decide (filters.category ≠ "") then
    templates.filter fun template => decide (template.category = filters.category)
  else templates

/-- `searchTemplates(query, filters)` on the array `this.templates`;
`localeCompare` is `String.prototype.localeCompare`.  `Array.prototype.sort`
sorts the array it is called on: when neither filter has replaced `templates`
by a new array, that array is `this.templates` itself. -/
def searchTemplates (toLowerCase : String → String) (localeCompare : String → String → Int)
    (thisTemplates : List Template) (query : String) (filters : SearchFilters) :
    SearchTemplatesResult :=
  let searched := decide (query ≠ "") && decide (jsTrim query ≠ "")
  let templates :=
    if searched then
      thisTemplates.filter (matchesSearchTerm toLowerCase (toLowerCase query))
    else thisTemplates
  let categorised := decide (filters.category ≠ "")
  let templates :=
    if categorised then
      templates.filter fun template => decide (template.category = filters.category)
    else templates
  let sorted :=
    if filters.sort = "newest" then
      jsSort (fun a b => b.createdAt - a.createdAt) templates
    else if filters.sort = "popular" then
      jsSort (fun a b => (b.downloads : Int) - (a.downloads : Int)) templates
    else if filters.sort = "rating" then
      jsSort (fun a b => (b.rating : Int) - (a.rating : Int)) templates
    else if filters.sort = "name" then
      jsSort (fun a b => localeCompare a.name b.name) templates
    else templates
  { returned := sorted
    templates := if searched || categorised then thisTemplates else sorted }

end TemplateManager

/-- An instance of `localeCompare`: the comparison of two strings by their
code points. -/
def ordinalCompare (x y : String) : Int :=
  if x < y then -1 else if x = y then 0 else 1

/-- A template that mentions portfolios in its description only; it is newer
and more downloaded than `plainPortfolio`. -/
def portfolioBlog : Template where
  id := "tpl-003"
  name := "Blog Theme"
  description := "Works as a portfolio too"
  category := "blogs"
  tags := ["blog", "writing"]
  technologies := ["HTML", "CSS"]
  difficulty := "easy"
  downloads := 300
  featured := false
  createdAt := 1738000000000

/-! ### Favorites (`assets/js/favorites.js`) -/

/-- An entry of `this.favorites`. -/
structure Favorite where
  templateId : String
  addedAt : String
  collection : String
  tags : List String
deriving DecidableEq

/-- The state of a `FavoritesManager` that `addFavorite` works on. -/
structure FavoritesManager where
  favorites : List Favorite
deriving DecidableEq

namespace DataManager

/-- `getTemplate(id)`: the first stored template with that id, `none` for
`null`. -/
def getTemplate (templates : List Template) (id : String) : Option Template :=
  templates.find? fun t => decide (t.id = id)

end DataManager

namespace FavoritesManager

/-- `addFavorite(templateId, collectionName)` over the stored templates; `now`
is the clock reading.  The result is the new state and the returned boolean;
the notification and the analytics event are not part of the state. -/
def addFavorite (m : FavoritesManager) (templates : List Template) (templateId : String)
    (collectionName : String) (now : String) : FavoritesManager × Bool :=
  match DataManager.getTemplate templates templateId with
  | none => (m, false)
  | some _ =>
    let favorite : Favorite :=
      { templateId := templateId, addedAt := now, collection := collectionName, tags := [] }
    let favorites := m.favorites.filter fun f =>
      decide (f.templateId ≠ templateId) || decide (f.collection ≠ collectionName)
    ({ favorites := favorite :: favorites }, true)

/-- A favorites list holding `tpl-001` twice in `Favorites` and once in
`To Review`, and `tpl-002` in `Favorites`. -/
def sampleFavorites : FavoritesManager where
  favorites :=
    [{ templateId := "tpl-002", addedAt := "2025-01-03T00:00:00.000Z",
       collection := "Favorites", tags := [] },
     { templateId := "tpl-001", addedAt := "2025-01-02T00:00:00.000Z",
       collection := "Favorites", tags := [] },
     { templateId := "tpl-001", addedAt := "2025-01-02T00:00:00.000Z",
       collection := "To Review", tags := [] },
     { templateId := "tpl-001", addedAt := "2025-01-01T00:00:00.000Z",
       collection := "Favorites", tags := [] }]

end FavoritesManager

namespace RatingSystem

/-- The collection that `getCurrentModalRating` receives as `starBtns`: the
`NodeList` that `modal.querySelectorAll('.star-btn')` returns on an element,
which has `forEach` and no `filter`, or an array.  Either holds the `active`
flags of the buttons in document order. -/
inductive StarButtons where
  | nodeList (active : List Bool)
  | array (active : List Bool)
deriving DecidableEq

/-- The `active` flags of the buttons of the collection. -/
def StarButtons.active : StarButtons → List Bool
  | StarButtons.nodeList active => active
  | StarButtons.array active => active

/-- What `submitRating` reads from its `modal` argument: the collection that
`modal.querySelectorAll('.star-btn')` returns and the value of
`#review-text`. -/
structure ModalElement where
  starBtns : StarButtons
  reviewValue : String
deriving DecidableEq

/-- `getCurrentModalRating(starBtns)` on either collection: on a `NodeList`,
`starBtns.filter` is not a function and the call throws a `TypeError`. -/
def getCurrentModalRatingOf : StarButtons → Except JsError Nat
  | StarButtons.nodeList _ => Except.error JsError.typeError
  | StarButtons.array active => Except.ok (getCurrentModalRating active)

/-- `submitRating(templateId, modal)` on what the modal holds: the rating is
read first (rating.js 189-190), and when that throws nothing else of the
method runs; otherwise the body runs on the buttons read. -/
def submitRatingOn (s : RatingSystem) (templateId : TemplateId) (modal : ModalElement)
    (now : String) : Except JsError RatingSystem :=
  match getCurrentModalRatingOf modal.starBtns with
  | Except.error e => Except.error e
  | Except.ok _ =>
    Except.ok
      (s.submitRating templateId
        { starBtns := modal.starBtns.active, reviewValue := modal.reviewValue } now)

/-- The instance after the call `submitRating(templateId, modal)`: the one
the body leaves, or the one of before when the call threw at its first
reading. -/
def afterSubmitRatingOn (s : RatingSystem) (templateId : TemplateId) (modal : ModalElement)
    (now : String) : RatingSystem :=
  match s.submitRatingOn templateId modal now with
  | Except.ok s' => s'
  | Except.error _ => s

/-- The modal element that `showRatingModal` builds with `Utils.showModal`:
five star buttons, the first `n` of them active, read as a `NodeList`, and
the given review text. -/
def shownModal (n : Nat) (reviewValue : String) : ModalElement where
  starBtns := StarButtons.nodeList (starModal n reviewValue).starBtns
  reviewValue := reviewValue

/-- Every stored aggregate has non-negative `totalVotes`, `totalRating` and
distribution counts. -/
def CountersNonNegative (s : RatingSystem) : Prop :=
  ∀ templateId a, s.ratings templateId = some a →
    0 ≤ a.totalVotes ∧ 0 ≤ a.totalRating ∧ ∀ k ∈ starValues, 0 ≤ (a.distribution k).value

/-- The stores reachable from the empty store of a user through calls of
`submitRating` on a modal element with one to five of its star buttons active
and of `deleteRating`. -/
inductive Reachable (userId : String) : RatingSystem → Prop where
  | empty : Reachable userId (emptyStore userId)
  | submit (s : RatingSystem) (templateId : TemplateId) (active : List Bool)
      (reviewValue : String) (now : String) :
      Reachable userId s → 1 ≤ getCurrentModalRating active →
      getCurrentModalRating active ≤ 5 →
      Reachable userId
        (s.afterSubmitRatingOn templateId
          { starBtns := StarButtons.nodeList active, reviewValue := reviewValue } now)
  | delete (s : RatingSystem) (templateId : TemplateId) :
      Reachable userId s → Reachable userId (s.deleteRating templateId)

/-- A store as loaded from storage with a four-star rating of the current
user for `modern-landing` and no aggregate for it. -/
def orphanRatingStore : RatingSystem where
  ratings := fun _ => none
  reviews := fun _ => none
  userRatings := fun t =>
    if t = "modern-landing" then
      some { rating := 4, review := "", timestamp := "2024-01-01T00:00:00.000Z",
             userId := "user_a" }
    else none
  currentUserId := "user_a"
  shown := []

end RatingSystem

/-! ## Theorems -/

theorem Count.exists_int_of_isInt {c : Count} (h : c.isInt = true) :
    ∃ z, c = Count.int z := by
  cases c <;> simp_all [Count.isInt]

/-- Removing one vote of star value `k` keeps an aggregate consistent. -/
theorem TemplateRating.Consistent.decr {a b : TemplateRating} (h : a.Consistent) (k : Nat)
    (hk1 : 1 ≤ k) (hk5 : k ≤ 5)
    (hr : b.totalRating = a.totalRating - (k : Int))
    (hv : b.totalVotes = a.totalVotes - 1)
    (hd : b.distribution = Function.update a.distribution k (a.distribution k).decr) :
    b.Consistent := by
  obtain ⟨hi, hs, hw⟩ := h
  obtain ⟨z1, h1⟩ := Count.exists_int_of_isInt (hi 1 (by simp [starValues]))
  obtain ⟨z2, h2⟩ := Count.exists_int_of_isInt (hi 2 (by simp [starValues]))
  obtain ⟨z3, h3⟩ := Count.exists_int_of_isInt (hi 3 (by simp [starValues]))
  obtain ⟨z4, h4⟩ := Count.exists_int_of_isInt (hi 4 (by simp [starValues]))
  obtain ⟨z5, h5⟩ := Count.exists_int_of_isInt (hi 5 (by simp [starValues]))
  simp only [starValues, List.map, List.sum_cons, List.sum_nil, h1, h2, h3, h4, h5,
    Count.value] at hs hw
  unfold TemplateRating.Consistent
  rw [hr, hv, hd]
  interval_cases k <;>
    simp [starValues, Function.update, h1, h2, h3, h4, h5, Count.decr, Count.isInt,
      Count.value] <;>
    constructor <;> omega

/-- Adding one vote of star value `k` keeps an aggregate consistent. -/
theorem TemplateRating.Consistent.incr {a b : TemplateRating} (h : a.Consistent) (k : Nat)
    (hk1 : 1 ≤ k) (hk5 : k ≤ 5)
    (hr : b.totalRating = a.totalRating + (k : Int))
    (hv : b.totalVotes = a.totalVotes + 1)
    (hd : b.distribution = Function.update a.distribution k (a.distribution k).incr) :
    b.Consistent := by
  obtain ⟨hi, hs, hw⟩ := h
  obtain ⟨z1, h1⟩ := Count.exists_int_of_isInt (hi 1 (by simp [starValues]))
  obtain ⟨z2, h2⟩ := Count.exists_int_of_isInt (hi 2 (by simp [starValues]))
  obtain ⟨z3, h3⟩ := Count.exists_int_of_isInt (hi 3 (by simp [starValues]))
  obtain ⟨z4, h4⟩ := Count.exists_int_of_isInt (hi 4 (by simp [starValues]))
  obtain ⟨z5, h5⟩ := Count.exists_int_of_isInt (hi 5 (by simp [starValues]))
  simp only [starValues, List.map, List.sum_cons, List.sum_nil, h1, h2, h3, h4, h5,
    Count.value] at hs hw
  unfold TemplateRating.Consistent
  rw [hr, hv, hd]
  interval_cases k <;>
    simp [starValues, Function.update, h1, h2, h3, h4, h5, Count.incr, Count.isInt,
      Count.value] <;>
    constructor <;> omega

theorem newTemplateRating_consistent : newTemplateRating.Consistent := by decide

namespace RatingSystem

theorem truthyRating_eq_some {o : Option Nat} {r : Nat} (h : truthyRating o = some r) :
    o = some r ∧ 1 ≤ r := by
  cases o with
  | none => simp [truthyRating] at h
  | some v =>
    cases v with
    | zero => simp [truthyRating] at h
    | succ v => simp [truthyRating] at h; subst h; simp

theorem getUserRating_eq_some {s : RatingSystem} {templateId : TemplateId} {r : Nat}
    (h : s.getUserRating templateId = some r) :
    ∃ u, s.userRatings templateId = some u ∧ u.rating = r := by
  unfold getUserRating at h
  cases hu : s.userRatings templateId with
  | none => simp [hu] at h
  | some u => simp [hu] at h; exact ⟨u, rfl, h⟩

/-- The aggregate that `updateTemplateRating` works on is consistent. -/
theorem current_consistent {s : RatingSystem} (hs : s.AggregatesConsistent)
    (templateId : TemplateId) :
    (match s.ratings templateId with
      | some existing => existing
      | none => newTemplateRating).Consistent := by
  cases h : s.ratings templateId with
  | none => exact newTemplateRating_consistent
  | some a => exact hs templateId a h

theorem updateTemplateRating_consistent (s : RatingSystem) (templateId : TemplateId)
    (newRating : Nat) (hs : s.AggregatesConsistent)
    (hp : ∀ u, s.userRatings templateId = some u → u.rating ≤ 5)
    (hn1 : 1 ≤ newRating) (hn5 : newRating ≤ 5) :
    (s.updateTemplateRating templateId newRating).AggregatesConsistent := by
  intro t a h
  unfold updateTemplateRating at h
  by_cases ht : t = templateId
  · subst ht
    simp only [Function.update_same, Option.some.injEq] at h
    have hc := current_consistent hs t
    cases hprev : truthyRating (s.getUserRating t) with
    | none =>
      rw [hprev] at h
      exact hc.incr newRating hn1 hn5 (by rw [← h]) (by rw [← h]) (by rw [← h])
    | some previous =>
      rw [hprev] at h
      obtain ⟨hget, hp1⟩ := truthyRating_eq_some hprev
      obtain ⟨u, hu, hur⟩ := getUserRating_eq_some hget
      have hp5 : previous ≤ 5 := hur ▸ hp u hu
      have hmid : (TemplateRating.mk
          ((match s.ratings t with
            | some existing => existing
            | none => newTemplateRating).totalRating - (previous : Int))
          ((match s.ratings t with
            | some existing => existing
            | none => newTemplateRating).totalVotes - 1)
          JsNumber.nan
          (Function.update (match s.ratings t with
            | some existing => existing
            | none => newTemplateRating).distribution previous
            ((match s.ratings t with
            | some existing => existing
            | none => newTemplateRating).distribution previous).decr)).Consistent :=
        hc.decr previous hp1 hp5 rfl rfl rfl
      exact hmid.incr newRating hn1 hn5 (by rw [← h]) (by rw [← h]; simp) (by rw [← h])
  · simp only [Function.update_noteq ht] at h
    exact hs t a h

theorem deleteRating_consistent (s : RatingSystem) (templateId : TemplateId)
    (hs : s.AggregatesConsistent)
    (hp : ∀ u, s.userRatings templateId = some u → u.rating ≤ 5) :
    (s.deleteRating templateId).AggregatesConsistent := by
  intro t a h
  unfold deleteRating at h
  cases hprev : truthyRating (s.getUserRating templateId) with
  | none =>
    rw [hprev] at h
    exact hs t a h
  | some r =>
    rw [hprev] at h
    obtain ⟨hget, hr1⟩ := truthyRating_eq_some hprev
    obtain ⟨u, hu, hur⟩ := getUserRating_eq_some hget
    have hr5 : r ≤ 5 := hur ▸ hp u hu
    cases hagg : s.ratings templateId with
    | none =>
      simp only [hagg] at h
      exact hs t a h
    | some old =>
      simp only [hagg] at h
      by_cases ht : t = templateId
      · subst ht
        simp only [Function.update_same, Option.some.injEq] at h
        exact (hs t old hagg).decr r hr1 hr5 (by rw [← h]) (by rw [← h]) (by rw [← h])
      · simp only [Function.update_noteq ht] at h
        exact hs t a h

theorem saveReview_ratings (s : RatingSystem) (templateId : TemplateId) (reviewText : String)
    (rating : Nat) (now : String) :
    (s.saveReview templateId reviewText rating now).ratings = s.ratings := rfl

theorem submitRating_ratings (s : RatingSystem) (templateId : TemplateId) (modal : Modal)
    (now : String) (h : getCurrentModalRating modal.starBtns ≠ 0) :
    (s.submitRating templateId modal now).ratings =
      (updateTemplateRating
        { s with
          userRatings := Function.update s.userRatings templateId
            (some { rating := getCurrentModalRating modal.starBtns
                    review := jsTrim modal.reviewValue
                    timestamp := now
                    userId := s.getCurrentUserId }) }
        templateId (getCurrentModalRating modal.starBtns)).ratings := by
  unfold submitRating
  simp only [h, if_false]
  split <;> rfl

theorem submitRating_consistent (s : RatingSystem) (templateId : TemplateId) (modal : Modal)
    (now : String) (hs : s.AggregatesConsistent)
    (h1 : 1 ≤ getCurrentModalRating modal.starBtns)
    (h5 : getCurrentModalRating modal.starBtns ≤ 5) :
    (s.submitRating templateId modal now).AggregatesConsistent := by
  intro t a h
  rw [submitRating_ratings s templateId modal now (by omega)] at h
  refine updateTemplateRating_consistent _ templateId _ ?_ ?_ h1 h5 t a h
  · exact hs
  · intro u hu
    simp only [Function.update_same, Option.some.injEq] at hu
    rw [← hu]
    exact h5

end RatingSystem

namespace RatingSystem

theorem decr_incr_idem (c : Count) : c.decr.incr.decr.incr = c.decr.incr := by
  cases c <;> simp [Count.decr, Count.incr]

/-- What `submitRating` stores for the template when a star is selected: the
counters it found, the quotient of the two totals as the average, and the
count under the selected star decremented and incremented again. -/
theorem submitRating_aggregate (s : RatingSystem) (templateId : TemplateId) (modal : Modal)
    (now : String) (h : getCurrentModalRating modal.starBtns ≠ 0) :
    (s.submitRating templateId modal now).ratings =
      Function.update s.ratings templateId
        (some
          { totalRating := (match s.ratings templateId with
              | some existing => existing
              | none => newTemplateRating).totalRating
            totalVotes := (match s.ratings templateId with
              | some existing => existing
              | none => newTemplateRating).totalVotes
            average := jsDiv
              (match s.ratings templateId with
                | some existing => existing
                | none => newTemplateRating).totalRating
              (match s.ratings templateId with
                | some existing => existing
                | none => newTemplateRating).totalVotes
            distribution := Function.update
              (match s.ratings templateId with
                | some existing => existing
                | none => newTemplateRating).distribution
              (getCurrentModalRating modal.starBtns)
              ((match s.ratings templateId with
                | some existing => existing
                | none => newTemplateRating).distribution
                (getCurrentModalRating modal.starBtns)).decr.incr }) := by
  rw [submitRating_ratings s templateId modal now h]
  generalize getCurrentModalRating modal.starBtns = n at h
  cases n with
  | zero => exact absurd rfl h
  | succ r =>
    simp only [updateTemplateRating, getUserRating, Function.update_same, truthyRating,
      Function.update_idem, sub_add_cancel]

end RatingSystem

namespace RatingSystem

theorem ratedStore_consistent : ratedStore.AggregatesConsistent := by
  intro t a h
  simp only [ratedStore] at h
  split at h
  · cases h; decide
  · cases h

theorem ratedStore_inRange : ratedStore.UserRatingsInRange := by
  intro t u h
  simp only [ratedStore] at h
  split at h
  · cases h; decide
  · cases h

/-- C1: in a store whose aggregates all satisfy the two sum equalities (and
whose stored user ratings are star values 1..5), one call of `submitRating`
with 1..5 stars selected, of `updateTemplateRating` with a new rating in 1..5,
or of `deleteRating` leaves every aggregate satisfying both equalities. -/
theorem aggregate_invariant_preserved (s : RatingSystem) (hs : s.AggregatesConsistent)
    (hu : s.UserRatingsInRange) :
    (∀ (templateId : TemplateId) (modal : Modal) (now : String),
      1 ≤ getCurrentModalRating modal.starBtns → getCurrentModalRating modal.starBtns ≤ 5 →
      (s.submitRating templateId modal now).AggregatesConsistent) ∧
    (∀ (templateId : TemplateId) (newRating : Nat), 1 ≤ newRating → newRating ≤ 5 →
      (s.updateTemplateRating templateId newRating).AggregatesConsistent) ∧
    (∀ templateId : TemplateId, (s.deleteRating templateId).AggregatesConsistent) :=
  ⟨fun templateId modal now h1 h5 => submitRating_consistent s templateId modal now hs h1 h5,
   fun templateId newRating h1 h5 =>
     updateTemplateRating_consistent s templateId newRating hs
       (fun u h => (hu templateId u h).2) h1 h5,
   fun templateId => deleteRating_consistent s templateId hs fun u h => (hu templateId u h).2⟩

/-- C1 at the store holding one three-star vote of the current user: a
five-star resubmission, a direct update to two stars and a deletion. -/
theorem aggregate_invariant_preserved_witness :
    ratedStore.AggregatesConsistent ∧ ratedStore.UserRatingsInRange ∧
    (ratedStore.submitRating "modern-landing" (starModal 5 "great") "t1").AggregatesConsistent ∧
    (ratedStore.updateTemplateRating "modern-landing" 2).AggregatesConsistent ∧
    (ratedStore.deleteRating "modern-landing").AggregatesConsistent :=
  ⟨ratedStore_consistent, ratedStore_inRange,
   (aggregate_invariant_preserved ratedStore ratedStore_consistent ratedStore_inRange).1
     "modern-landing" (starModal 5 "great") "t1" (by decide) (by decide),
   (aggregate_invariant_preserved ratedStore ratedStore_consistent ratedStore_inRange).2.1
     "modern-landing" 2 (by decide) (by decide),
   (aggregate_invariant_preserved ratedStore ratedStore_consistent ratedStore_inRange).2.2
     "modern-landing"⟩

/-- C2 at the empty store: the user has no rating for `modern-landing`, four
stars are submitted, and the aggregate stored afterwards has `totalRating` 0,
`totalVotes` 0 and `distribution[4]` 0 (the claim: 4, 1 and 1), while the
user's rating is recorded as 4. -/
theorem first_submission_not_counted :
    (emptyStore "user_a").getUserRating "modern-landing" = none ∧
    ((emptyStore "user_a").submitRating "modern-landing" (starModal 4 "") "t0").getUserRating
      "modern-landing" = some 4 ∧
    ((((emptyStore "user_a").submitRating "modern-landing" (starModal 4 "") "t0").ratings
      "modern-landing").map fun a => (a.totalRating, a.totalVotes, a.distribution 4)) =
      some (0, 0, Count.int 0) := by
  decide

/-- C3 at the store where the user holds three stars and the aggregate is that
one vote: after resubmitting five stars the aggregate still has `totalRating`
3, `distribution[3]` 1 and `distribution[5]` 0 (the claim: 5, 0 and 1);
`totalVotes` stays 1. -/
theorem resubmission_not_counted :
    ratedStore.getUserRating "modern-landing" = some 3 ∧
    ((ratedStore.ratings "modern-landing").map fun a =>
      (a.totalRating, a.totalVotes, a.distribution 3, a.distribution 5)) =
      some (3, 1, Count.int 1, Count.int 0) ∧
    (((ratedStore.submitRating "modern-landing" (starModal 5 "") "t1").ratings
      "modern-landing").map fun a =>
      (a.totalRating, a.totalVotes, a.distribution 3, a.distribution 5)) =
      some (3, 1, Count.int 1, Count.int 0) := by
  decide

end RatingSystem

namespace RatingSystem

/-- C6 as stated fails on the report: at the store where the current user has
no rating for `modern-landing`, `deleteRating` shows no notification at all
(the list of shown notifications stays empty). -/
theorem delete_without_rating_is_silent :
    visitorStore.getUserRating "modern-landing" = none ∧
    visitorStore.shown = [] ∧
    (visitorStore.deleteRating "modern-landing").shown = [] := by
  decide

/-- C6, amended: when the current user holds no rating for the template,
`deleteRating` returns without any notification and changes nothing: the
whole state (`ratings`, `userRatings`, `reviews`, shown notifications) is the
one before the call. -/
theorem deleteRating_without_rating (s : RatingSystem) (templateId : TemplateId)
    (h : s.userRatings templateId = none) :
    s.deleteRating templateId = s := by
  simp [deleteRating, getUserRating, h, truthyRating]

/-- C6, amended, at the store where only somebody else has rated
`modern-landing`. -/
theorem deleteRating_without_rating_witness :
    visitorStore.userRatings "modern-landing" = none ∧
    visitorStore.deleteRating "modern-landing" = visitorStore :=
  ⟨rfl, deleteRating_without_rating visitorStore "modern-landing" rfl⟩

/-- C7 as stated fails on the zeroed distribution: the current user holds
five stars for `modern-landing`, the aggregate is one vote of one star; after
`deleteRating` the resulting `totalVotes` is 0 while `distribution[1]` is 1
and `distribution[5]` is -1. -/
theorem delete_leaves_nonzero_distribution :
    driftedStore.getUserRating "modern-landing" = some 5 ∧
    ((driftedStore.ratings "modern-landing").map fun a =>
      (a.totalRating, a.totalVotes, a.distribution 1, a.distribution 5)) =
      some (1, 1, Count.int 1, Count.int 0) ∧
    (((driftedStore.deleteRating "modern-landing").ratings "modern-landing").map fun a =>
      (a.totalRating, a.totalVotes, a.distribution 1, a.distribution 5)) =
      some (-4, 0, Count.int 1, Count.int (-1)) := by
  decide

/-- C7, amended: when the current user holds rating `r` in 1..5 for the
template and an aggregate exists whose `distribution[r]` is the integer `d`,
`deleteRating` leaves an aggregate for the template with `totalRating`
decreased by `r`, `totalVotes` decreased by 1 and `distribution[r] = d - 1`;
when the resulting `totalVotes` is 0 the average is 0, and every distribution
entry is 0 provided the aggregate before the call satisfied the two sum
equalities with non-negative counts and `d ≥ 1`. -/
theorem deleteRating_aggregate (s : RatingSystem) (templateId : TemplateId) (u : UserRating)
    (a : TemplateRating) (d : Int)
    (hu : s.userRatings templateId = some u) (hr1 : 1 ≤ u.rating) (hr5 : u.rating ≤ 5)
    (ha : s.ratings templateId = some a) (hd : a.distribution u.rating = Count.int d) :
    ∃ a', (s.deleteRating templateId).ratings templateId = some a' ∧
      a'.totalRating = a.totalRating - (u.rating : Int) ∧
      a'.totalVotes = a.totalVotes - 1 ∧
      a'.distribution u.rating = Count.int (d - 1) ∧
      (a'.totalVotes = 0 →
        a'.average = JsNumber.finite 0 ∧
        (a.Consistent → (∀ k ∈ starValues, 0 ≤ (a.distribution k).value) → 1 ≤ d →
          ∀ k ∈ starValues, a'.distribution k = Count.int 0)) := by
  obtain ⟨rating, review, timestamp, userId⟩ := u
  simp only at hr1 hr5 hd ⊢
  obtain ⟨r, rfl⟩ : ∃ r, rating = r + 1 := ⟨rating - 1, by omega⟩
  refine ⟨{ totalRating := a.totalRating - ((r + 1 : Nat) : Int),
            totalVotes := a.totalVotes - 1,
            distribution := Function.update a.distribution (r + 1)
              (a.distribution (r + 1)).decr,
            average := if 0 < a.totalVotes - 1 then
                jsDiv (a.totalRating - ((r + 1 : Nat) : Int)) (a.totalVotes - 1)
              else JsNumber.finite 0 }, ?_, rfl, rfl, ?_, ?_⟩
  · simp only [deleteRating, getUserRating, hu, truthyRating, ha, Function.update_same]
  · simp [Function.update_same, hd, Count.decr]
  · intro hv
    simp only at hv
    refine ⟨by simp [hv], ?_⟩
    intro hc hnn hd1
    obtain ⟨hi, hsum, -⟩ := hc
    obtain ⟨z1, h1⟩ := Count.exists_int_of_isInt (hi 1 (by simp [starValues]))
    obtain ⟨z2, h2⟩ := Count.exists_int_of_isInt (hi 2 (by simp [starValues]))
    obtain ⟨z3, h3⟩ := Count.exists_int_of_isInt (hi 3 (by simp [starValues]))
    obtain ⟨z4, h4⟩ := Count.exists_int_of_isInt (hi 4 (by simp [starValues]))
    obtain ⟨z5, h5⟩ := Count.exists_int_of_isInt (hi 5 (by simp [starValues]))
    simp only [starValues, List.map, List.sum_cons, List.sum_nil, h1, h2, h3, h4, h5,
      Count.value] at hsum
    have n1 := hnn 1 (by simp [starValues])
    have n2 := hnn 2 (by simp [starValues])
    have n3 := hnn 3 (by simp [starValues])
    have n4 := hnn 4 (by simp [starValues])
    have n5 := hnn 5 (by simp [starValues])
    simp only [h1, h2, h3, h4, h5, Count.value] at n1 n2 n3 n4 n5
    have hr' : r ≤ 4 := by omega
    intro k hk
    simp only [starValues, List.mem_cons, List.mem_singleton, List.mem_nil_iff,
      or_false] at hk
    clear hr1 hr5 hu hnn hi
    interval_cases r <;>
      simp only [Nat.reduceAdd, h1, h2, h3, h4, h5, Count.int.injEq] at hd <;>
      subst hd <;>
      rcases hk with rfl | rfl | rfl | rfl | rfl <;>
      simp [Function.update, h1, h2, h3, h4, h5, Count.decr] <;>
      omega

/-- C7, amended, at the store holding exactly the current user's three-star
vote: deletion leaves the aggregate present with no votes, average 0 and an
all-zero distribution. -/
theorem deleteRating_aggregate_witness :
    ∃ a', (ratedStore.deleteRating "modern-landing").ratings "modern-landing" = some a' ∧
      a'.totalRating = 0 ∧ a'.totalVotes = 0 ∧ a'.average = JsNumber.finite 0 ∧
      ∀ k ∈ starValues, a'.distribution k = Count.int 0 := by
  obtain ⟨a', h, hr, hv, -, hz⟩ :=
    deleteRating_aggregate ratedStore "modern-landing"
      { rating := 3, review := "", timestamp := "2024-01-01T00:00:00.000Z", userId := "user_a" }
      oneVoteOfThree 1 rfl (by decide) (by decide) rfl rfl
  have hv0 : a'.totalVotes = 0 := by rw [hv]; rfl
  exact ⟨a', h, by rw [hr]; rfl, hv0, (hz hv0).1,
    (hz hv0).2 (by decide) (by decide) (by decide)⟩

/-- C8: submitting the same modal for the same template twice in a row leaves
the rating table, and so the template's aggregate (`totalRating`,
`totalVotes`, `average`, `distribution`), exactly as one submission does. -/
theorem submitRating_twice (s : RatingSystem) (templateId : TemplateId) (modal : Modal)
    (now later : String) :
    ((s.submitRating templateId modal now).submitRating templateId modal later).ratings =
      (s.submitRating templateId modal now).ratings := by
  by_cases h : getCurrentModalRating modal.starBtns = 0
  · simp [submitRating, h]
  · rw [submitRating_aggregate _ templateId modal later h,
      submitRating_aggregate s templateId modal now h]
    simp only [Function.update_same, Function.update_idem, decr_incr_idem]

/-- C10 on the spec's scenario: after three users rate 3, 4 and 5 the
aggregate has no votes, average `NaN` and zero counts under 3, 4 and 5 (the
claim: average 4, one vote each); after the first user resubmits 5 it is
still so (the claim: average 14/3, counts 0, 1, 2). -/
theorem scenario_three_users :
    ((threeUsersRated.ratings "modern-landing").map fun a =>
      (a.totalRating, a.totalVotes, a.average)) = some (0, 0, JsNumber.nan) ∧
    ((threeUsersRated.ratings "modern-landing").map fun a =>
      (a.distribution 3, a.distribution 4, a.distribution 5)) =
      some (Count.int 0, Count.int 0, Count.int 0) ∧
    ((firstUserResubmitted.ratings "modern-landing").map fun a =>
      (a.totalRating, a.totalVotes, a.average)) = some (0, 0, JsNumber.nan) ∧
    ((firstUserResubmitted.ratings "modern-landing").map fun a =>
      (a.distribution 3, a.distribution 4, a.distribution 5)) =
      some (Count.int 0, Count.int 0, Count.int 0) := by
  decide

end RatingSystem

namespace RatingSystem

theorem filter_ne_of_filter_ne (userId : String) (l : List Review) :
    (l.filter fun review => decide (review.userId ≠ userId)).filter
      (fun review => decide (review.userId = userId)) = [] := by
  induction l with
  | nil => rfl
  | cons r l ih =>
    by_cases h : r.userId = userId <;> simp [List.filter_cons, h, ih]

/-- C12: after `saveReview` the template's review list holds exactly one
review of the current user, the one with the new text and rating, and the
reviews of the other users are those of before, unchanged and in order. -/
theorem saveReview_one_review_per_user (s : RatingSystem) (templateId : TemplateId)
    (reviewText : String) (rating : Nat) (now : String) :
    ∃ list, (s.saveReview templateId reviewText rating now).reviews templateId = some list ∧
      list.filter (fun review => decide (review.userId = s.getCurrentUserId)) =
        [{ userId := s.getCurrentUserId, text := reviewText, rating := rating,
           timestamp := now, helpful := 0 }] ∧
      list.filter (fun review => decide (review.userId ≠ s.getCurrentUserId)) =
        (match s.reviews templateId with
          | some before => before
          | none => []).filter (fun review => decide (review.userId ≠ s.getCurrentUserId)) := by
  refine ⟨(match s.reviews templateId with
      | some before => before
      | none => []).filter (fun review => decide (review.userId ≠ s.getCurrentUserId)) ++
      [{ userId := s.getCurrentUserId, text := reviewText, rating := rating,
         timestamp := now, helpful := 0 }], ?_, ?_, ?_⟩
  · simp only [saveReview, Function.update_same]
  · rw [List.filter_append, filter_ne_of_filter_ne]
    simp
  · rw [List.filter_append, List.filter_filter]
    simp

/-- C13 as stated fails: the current user's review of `modern-landing` has
helpful counter 3; after `saveReview` the user's review carries the new text
with helpful counter 0, placed after the other user's review. -/
theorem resubmitted_review_resets_helpful :
    ((reviewedStore.reviews "modern-landing").map fun list =>
      list.map fun review => (review.userId, review.text, review.helpful)) =
      some [("user_a", "Nice", 3), ("user_b", "Solid", 1)] ∧
    (((reviewedStore.saveReview "modern-landing" "Great" 5
        "2024-02-01T00:00:00.000Z").reviews "modern-landing").map fun list =>
      list.map fun review => (review.userId, review.text, review.helpful)) =
      some [("user_b", "Solid", 1), ("user_a", "Great", 0)] := by
  decide

/-- C13, amended: whatever helpfulness counter the current user's earlier
review had, after `saveReview` the user's only review has the new text,
rating and timestamp and the helpful counter 0. -/
theorem saveReview_helpful_zero (s : RatingSystem) (templateId : TemplateId)
    (reviewText : String) (rating : Nat) (now : String) :
    ((s.saveReview templateId reviewText rating now).reviews templateId).map
      (fun list =>
        (list.filter fun review => decide (review.userId = s.getCurrentUserId)).map
          fun review => (review.text, review.rating, review.timestamp, review.helpful)) =
      some [(reviewText, rating, now, 0)] := by
  simp only [saveReview, Function.update_same, Option.map_some', List.filter_append,
    filter_ne_of_filter_ne]
  simp

end RatingSystem

namespace SearchManager

theorem foldl_add_if {α : Type} (p : α → Bool) (k : Nat) (l : List α) (init : Nat) :
    l.foldl (fun score x => if p x then score + k else score) init =
      init + k * (l.filter p).length := by
  induction l generalizing init with
  | nil => simp
  | cons x l ih =>
    simp only [List.foldl_cons, ih, List.filter_cons]
    by_cases h : p x
    · simp [h]; ring
    · simp [h]

theorem foldl_add_map {α : Type} (g : α → Nat) (l : List α) (init : Nat) :
    l.foldl (fun score x => score + g x) init = init + (l.map g).sum := by
  induction l generalizing init with
  | nil => simp
  | cons x l ih => simp only [List.foldl_cons, ih, List.map_cons, List.sum_cons]; ring

/-- The score of the `map` callback is the reference sum of the spec. -/
theorem scoreTemplate_eq_referenceScore (toLowerCase : String → String) (query : String)
    (terms : List String) (template : Template) :
    scoreTemplate toLowerCase query terms template =
      referenceScore toLowerCase query terms template := by
  have hterm : ∀ (score : Nat) (term : String),
      (template.tags.foldl
        (fun score tag => if jsIncludes (toLowerCase tag) term then score + 15 else score)
        (if jsIncludes (toLowerCase template.description) term then
          (if jsIncludes (toLowerCase template.name) term then score + 20 else score) + 10
        else (if jsIncludes (toLowerCase template.name) term then score + 20 else score))) =
      score + ((if jsIncludes (toLowerCase template.name) term then 20 else 0)
        + (if jsIncludes (toLowerCase template.description) term then 10 else 0)
        + 15 * (template.tags.filter fun tag => jsIncludes (toLowerCase tag) term).length) := by
    intro score term
    rw [foldl_add_if]
    split <;> split <;> ring
  unfold scoreTemplate referenceScore
  simp only [hterm, foldl_add_map, foldl_add_if]
  split <;> split <;> split <;> split <;> split <;> ring

theorem mem_jsSort {α : Type} (compare : α → α → Int) (l : List α) (x : α) :
    x ∈ jsSort compare l ↔ x ∈ l :=
  List.mem_insertionSort _

theorem perm_jsSort {α : Type} (compare : α → α → Int) (l : List α) :
    (jsSort compare l).Perm l :=
  List.perm_insertionSort _ l

/-- Every result of `performAdvancedSearch` carries the score of its own
template. -/
theorem searchScore_of_mem (toLowerCase : String → String) (templates : List Template)
    (query : String) (result : ScoredTemplate)
    (h : result ∈ performAdvancedSearch toLowerCase templates query) :
    result.searchScore =
      scoreTemplate toLowerCase query (searchTerms toLowerCase query) result.template := by
  unfold performAdvancedSearch at h
  rw [mem_jsSort] at h
  obtain ⟨template, -, rfl⟩ := List.mem_map.1 (List.mem_filter.1 h).1
  rfl

/-- C14: the `searchScore` of every result of `performAdvancedSearch` is the
additive reference sum of its template for the query and the query's search
terms, and the score computed for one template is that sum; the record named
Modern Landing Page with tags modern and responsive, 1567 downloads and the
featured flag is returned for the query `modern` with score 180. -/
theorem searchScore_is_reference_sum :
    (∀ (toLowerCase : String → String) (templates : List Template) (query : String),
      (performAdvancedSearch toLowerCase templates query).map (fun result => result.searchScore)
        = (performAdvancedSearch toLowerCase templates query).map fun result =>
            referenceScore toLowerCase query (searchTerms toLowerCase query) result.template) ∧
    (∀ (toLowerCase : String → String) (query : String) (template : Template),
      scoreTemplate toLowerCase query (searchTerms toLowerCase query) template =
        referenceScore toLowerCase query (searchTerms toLowerCase query) template) ∧
    performAdvancedSearch asciiToLowerCase [specLandingPage] "modern" =
      [{ template := specLandingPage, searchScore := 180 }] ∧
    referenceScore asciiToLowerCase "modern" ["modern"] specLandingPage
      = 100 + 30 + 20 + 15 + 10 + 5 := by
  refine ⟨fun toLowerCase templates query => ?_, fun toLowerCase query template =>
    scoreTemplate_eq_referenceScore _ _ _ _, by decide, by decide⟩
  refine List.map_congr_left fun result h => ?_
  rw [searchScore_of_mem toLowerCase templates query result h,
    scoreTemplate_eq_referenceScore]

theorem splitChars_congr (p q : Char → Bool) (l : List Char) (h : ∀ c ∈ l, p c = q c) :
    splitChars p l = splitChars q l := by
  induction l with
  | nil => rfl
  | cons c cs ih =>
    have hc : p c = q c := h c (List.mem_cons_self _ _)
    have hcs : splitChars p cs = splitChars q cs :=
      ih fun d hd => h d (List.mem_cons_of_mem _ hd)
    simp only [splitChars, hc, hcs]

theorem splitChars_no_separator (p : Char → Bool) (l : List Char) :
    ∀ piece ∈ splitChars p l, ∀ c ∈ piece, p c = false := by
  induction l with
  | nil => intro piece h; simp [splitChars] at h; subst h; simp
  | cons c cs ih =>
    intro piece h
    simp only [splitChars] at h
    by_cases hc : p c = true
    · simp only [hc, if_true, List.mem_cons] at h
      rcases h with rfl | h
      · simp
      · exact ih piece h
    · simp only [hc] at h
      cases hs : splitChars p cs with
      | nil =>
        simp only [hs, Bool.false_eq_true, if_false, List.mem_singleton] at h
        subst h
        simpa using hc
      | cons w ws =>
        simp only [hs, Bool.false_eq_true, if_false, List.mem_cons] at h
        rcases h with rfl | h
        · intro d hd
          rcases List.mem_cons.1 hd with rfl | hd
          · simpa using hc
          · exact ih w (by simp [hs]) d hd
        · exact ih piece (by simp [hs, h])

theorem splitChars_join (p : Char → Bool) (l : List Char) :
    (splitChars p l).flatten = l.filter fun c => !p c := by
  induction l with
  | nil => simp [splitChars]
  | cons c cs ih =>
    simp only [splitChars]
    by_cases hc : p c = true
    · simp [hc, ih]
    · have ih' : List.filter (fun c => !p c) cs = (splitChars p cs).flatten := ih.symm
      cases hs : splitChars p cs with
      | nil => rw [hs] at ih'; simp [hc, ih']
      | cons w ws => rw [hs] at ih'; simp [hc, ih']

theorem jsLength_pos_iff (piece : List Char) : 0 < jsLength (String.mk piece) ↔ piece ≠ [] := by
  cases piece with
  | nil => simp [jsLength]
  | cons c cs =>
    have : 0 < jsLength (String.mk (c :: cs)) := by
      show 0 < (List.map (fun c => if 65536 ≤ c.toNat then 2 else 1) (c :: cs)).sum
      simp only [List.map_cons, List.sum_cons]
      split <;> omega
    simpa using this

theorem flatMap_nonempty_pieces (pieces : List (List Char)) :
    ((pieces.map String.mk).filter fun term => decide (jsLength term > 0)).flatMap String.toList
      = pieces.flatten := by
  induction pieces with
  | nil => rfl
  | cons piece pieces ih =>
    by_cases h : piece = []
    · subst h
      simpa [List.filter_cons, jsLength] using ih
    · have hpos : jsLength (String.mk piece) > 0 := (jsLength_pos_iff piece).2 h
      simp only [List.map_cons, List.filter_cons, hpos, decide_True, if_true,
        List.flatMap_cons, List.flatten_cons, ih]
      rfl

/-- C15 as stated fails on whitespace other than the space: for the query
of `a`, a tab and `b`, the search terms are the single term holding all three
characters, while the whitespace-delimited tokens are `a` and `b`. -/
theorem tab_does_not_separate :
    searchTerms asciiToLowerCase "a\tb" = ["a\tb"] ∧
    whitespaceTokens (asciiToLowerCase "a\tb") = ["a", "b"] := by
  decide

/-- C15, amended: the search terms are the space-delimited tokens of the
lower-cased query: no term is empty, no term contains a space, the terms
concatenated are the lower-cased query without its spaces, and when the
lower-cased query has no whitespace character other than the space they are
exactly its whitespace-delimited tokens. -/
theorem searchTerms_space_delimited (toLowerCase : String → String) (query : String) :
    ((searchTerms toLowerCase query).all fun term =>
      decide (0 < jsLength term) && term.toList.all fun c => decide (c ≠ ' ')) = true ∧
    (searchTerms toLowerCase query).flatMap String.toList =
      (toLowerCase query).toList.filter (fun c => decide (c ≠ ' ')) ∧
    ((∀ c ∈ (toLowerCase query).toList, isJsWhitespace c = true → c = ' ') →
      searchTerms toLowerCase query = whitespaceTokens (toLowerCase query)) := by
  refine ⟨?_, ?_, ?_⟩
  · rw [List.all_eq_true]
    intro term hterm
    unfold searchTerms jsSplit at hterm
    obtain ⟨hmem, hlen⟩ := List.mem_filter.1 hterm
    obtain ⟨piece, hpiece, rfl⟩ := List.mem_map.1 hmem
    simp only [Bool.and_eq_true, List.all_eq_true]
    refine ⟨by simpa using hlen, fun c hc => ?_⟩
    have := splitChars_no_separator _ _ piece hpiece c hc
    simpa using this
  · unfold searchTerms jsSplit
    rw [flatMap_nonempty_pieces, splitChars_join]
    congr 1
    funext c
    simp
  · intro h
    unfold searchTerms whitespaceTokens jsSplit
    rw [splitChars_congr (fun c => decide (c = ' ')) isJsWhitespace]
    intro c hc
    by_cases hsp : c = ' '
    · subst hsp; decide
    · have : isJsWhitespace c ≠ true := fun hw => hsp (h c hc hw)
      simp [hsp, this]

/-- C15, amended, on a query with leading, doubled and trailing spaces. -/
theorem searchTerms_space_delimited_witness :
    searchTerms asciiToLowerCase "  Modern  Page " =
      whitespaceTokens (asciiToLowerCase "  Modern  Page ") ∧
    searchTerms asciiToLowerCase "  Modern  Page " = ["modern", "page"] :=
  ⟨(searchTerms_space_delimited asciiToLowerCase "  Modern  Page ").2.2 (by decide),
   by decide⟩

theorem filter_orderedInsert {α : Type} (r : α → α → Prop) [DecidableRel r] (p : α → Bool)
    (h : ∀ a b, p a = true → p b = true → r a b) (a : α) (l : List α) :
    (l.orderedInsert r a).filter p = (a :: l).filter p := by
  induction l with
  | nil => rfl
  | cons b l ih =>
    by_cases hab : r a b
    · simp [List.orderedInsert, hab]
    · simp only [List.orderedInsert, hab, if_false, List.filter_cons, ih]
      by_cases hpa : p a = true
      · by_cases hpb : p b = true
        · exact absurd (h a b hpa hpb) hab
        · simp [hpa, hpb]
      · simp [hpa]

/-- Stability of `sort`: elements that the comparator does not order keep
their relative order. -/
theorem filter_jsSort {α : Type} (compare : α → α → Int) (p : α → Bool)
    (h : ∀ a b, p a = true → p b = true → compare a b ≤ 0) (l : List α) :
    (jsSort compare l).filter p = l.filter p := by
  induction l with
  | nil => rfl
  | cons a l ih =>
    have := filter_orderedInsert (fun a b => compare a b ≤ 0) p h a
      (List.insertionSort (fun a b => compare a b ≤ 0) l)
    unfold jsSort at ih ⊢
    rw [List.insertionSort, this, List.filter_cons, List.filter_cons, ih]

theorem sorted_by_score (l : List ScoredTemplate) :
    (jsSort (fun a b => (b.searchScore : Int) - (a.searchScore : Int)) l).Sorted
      fun a b => a.searchScore ≥ b.searchScore := by
  haveI : IsTotal ScoredTemplate
      (fun a b => (b.searchScore : Int) - (a.searchScore : Int) ≤ 0) :=
    ⟨fun a b => by omega⟩
  haveI : IsTrans ScoredTemplate
      (fun a b => (b.searchScore : Int) - (a.searchScore : Int) ≤ 0) :=
    ⟨fun a b c hab hbc => by omega⟩
  have hsorted : List.Pairwise
      (fun a b : ScoredTemplate => (b.searchScore : Int) - (a.searchScore : Int) ≤ 0)
      (jsSort (fun a b => (b.searchScore : Int) - (a.searchScore : Int)) l) :=
    List.sorted_insertionSort
      (fun a b : ScoredTemplate => (b.searchScore : Int) - (a.searchScore : Int) ≤ 0) l
  refine List.Pairwise.imp ?_ hsorted
  intro a b hab
  show a.searchScore ≥ b.searchScore
  omega

theorem performAdvancedSearch_perm (toLowerCase : String → String)
    (templates : List Template) (query : String) :
    (performAdvancedSearch toLowerCase templates query).Perm
      ((templates.map fun template =>
          ({ template := template
             searchScore := scoreTemplate toLowerCase query (searchTerms toLowerCase query)
               template } : ScoredTemplate)).filter
        fun result => decide (result.searchScore > 0)) :=
  perm_jsSort _ _

theorem performAdvancedSearch_templates_perm (toLowerCase : String → String)
    (templates : List Template) (query : String) :
    ((performAdvancedSearch toLowerCase templates query).map fun result => result.template).Perm
      (templates.filter fun template =>
        decide (scoreTemplate toLowerCase query (searchTerms toLowerCase query) template > 0)) := by
  refine ((performAdvancedSearch_perm toLowerCase templates query).map _).trans
    (List.Perm.of_eq ?_)
  rw [List.filter_map, List.map_map]
  simp [Function.comp_def]

/-- C16: the list returned by `performAdvancedSearch` is a rearrangement of
the scored catalogue entries whose score is greater than 0 (each as often as
it occurs in the catalogue), its templates are a rearrangement of the
catalogue templates scoring more than 0, and every returned score is greater
than 0. -/
theorem results_are_positive_scores (toLowerCase : String → String)
    (templates : List Template) (query : String) :
    (performAdvancedSearch toLowerCase templates query).Perm
      ((templates.map fun template =>
          ({ template := template
             searchScore := scoreTemplate toLowerCase query (searchTerms toLowerCase query)
               template } : ScoredTemplate)).filter
        fun result => decide (result.searchScore > 0)) ∧
    ((performAdvancedSearch toLowerCase templates query).map fun result => result.template).Perm
      (templates.filter fun template =>
        decide (scoreTemplate toLowerCase query (searchTerms toLowerCase query) template > 0)) ∧
    ((performAdvancedSearch toLowerCase templates query).all fun result =>
      decide (result.searchScore > 0)) = true := by
  refine ⟨performAdvancedSearch_perm _ _ _, performAdvancedSearch_templates_perm _ _ _, ?_⟩
  rw [List.all_eq_true]
  intro result h
  exact (List.mem_filter.1 ((performAdvancedSearch_perm _ _ _).mem_iff.1 h)).2

/-- C17: the list returned by `performAdvancedSearch` is ordered by
non-increasing `searchScore`, and for every score the results with that score
are, in the same order, the catalogue entries with that score. -/
theorem results_sorted_and_stable (toLowerCase : String → String)
    (templates : List Template) (query : String) :
    (performAdvancedSearch toLowerCase templates query).Sorted
      (fun a b => a.searchScore ≥ b.searchScore) ∧
    ∀ score : Nat,
      ((performAdvancedSearch toLowerCase templates query).filter fun result =>
        decide (result.searchScore = score)) =
      (((templates.map fun template =>
          ({ template := template
             searchScore := scoreTemplate toLowerCase query (searchTerms toLowerCase query)
               template } : ScoredTemplate)).filter
        fun result => decide (result.searchScore > 0)).filter fun result =>
        decide (result.searchScore = score)) := by
  refine ⟨sorted_by_score _, fun score => ?_⟩
  unfold performAdvancedSearch
  refine filter_jsSort _ _ (fun a b ha hb => ?_) _
  have ha' : a.searchScore = score := by simpa using ha
  have hb' : b.searchScore = score := by simpa using hb
  omega

theorem includesChars_nil (l : List Char) : includesChars l [] = true := by
  cases l <;> simp [includesChars, startsWithChars]

theorem jsIncludes_empty (toLowerCase : String → String) (h : toLowerCase "" = "")
    (text : String) : jsIncludes (toLowerCase text) (toLowerCase "") = true := by
  rw [h]
  exact includesChars_nil _

theorem score_of_empty_query (toLowerCase : String → String) (h : toLowerCase "" = "")
    (terms : List String) (template : Template) :
    190 ≤ scoreTemplate toLowerCase "" terms template := by
  rw [scoreTemplate_eq_referenceScore]
  unfold referenceScore
  simp only [jsIncludes_empty toLowerCase h, if_true]
  omega

/-- C18 as stated fails for the ranked search itself: with the empty text
`performAdvancedSearch` returns the template of a one-template catalogue, with
score 300. -/
theorem empty_query_returns_catalogue :
    performAdvancedSearch asciiToLowerCase [plainPortfolio] "" =
      [{ template := plainPortfolio, searchScore := 300 }] := by
  decide

/-- C18, amended: `handleSearch` clears the search for every query of fewer
than two code units, the empty one included, without running the ranked
search; `performAdvancedSearch` on the empty text returns the whole catalogue,
every template with a score of at least 190. -/
theorem empty_query_search (toLowerCase : String → String) (templates : List Template) :
    (∀ query : String, jsLength query < 2 →
      handleSearch toLowerCase templates query = SearchOutcome.cleared) ∧
    handleSearch toLowerCase templates "" = SearchOutcome.cleared ∧
    (toLowerCase "" = "" →
      ((performAdvancedSearch toLowerCase templates "").map fun result =>
        result.template).Perm templates ∧
      ((performAdvancedSearch toLowerCase templates "").all fun result =>
        decide (190 ≤ result.searchScore)) = true) := by
  refine ⟨fun query hq => by simp [handleSearch, hq], by simp [handleSearch, jsLength], ?_⟩
  intro h
  constructor
  · refine (performAdvancedSearch_templates_perm toLowerCase templates "").trans
      (List.Perm.of_eq ?_)
    rw [List.filter_eq_self]
    intro template _
    have := score_of_empty_query toLowerCase h (searchTerms toLowerCase "") template
    simp only [decide_eq_true_eq]
    omega
  · rw [List.all_eq_true]
    intro result hmem
    rw [searchScore_of_mem toLowerCase templates "" result hmem]
    simpa using score_of_empty_query toLowerCase h _ result.template

/-- C18, amended, on a catalogue of two templates. -/
theorem empty_query_search_witness :
    handleSearch asciiToLowerCase [specLandingPage, plainPortfolio] "m" =
      SearchOutcome.cleared ∧
    ((performAdvancedSearch asciiToLowerCase [specLandingPage, plainPortfolio] "").map
      fun result => result.template).Perm [specLandingPage, plainPortfolio] ∧
    ((performAdvancedSearch asciiToLowerCase [specLandingPage, plainPortfolio] "").all
      fun result => decide (190 ≤ result.searchScore)) = true :=
  ⟨(empty_query_search asciiToLowerCase [specLandingPage, plainPortfolio]).1 "m" (by decide),
   (empty_query_search asciiToLowerCase [specLandingPage, plainPortfolio]).2.2 (by decide)⟩

/-- C19 as stated fails: with the empty query `generateSuggestions` suggests
the name, the tags and the technologies of a one-template catalogue. -/
theorem empty_query_suggests_everything :
    (generateSuggestions asciiToLowerCase [plainPortfolio] [] [] "").map
      (fun suggestion => (suggestion.type, suggestion.text)) =
      [(SuggestionType.template, "Creative Portfolio"), (SuggestionType.tag, "portfolio"),
       (SuggestionType.tag, "creative"), (SuggestionType.technology, "HTML"),
       (SuggestionType.technology, "CSS")] := by
  decide

/-- C19, amended: `updateSearchSuggestions` hides the suggestions for every
query of fewer than two code units, the empty one included, without calling
`generateSuggestions`; `generateSuggestions` on the empty query keeps every
candidate and returns the first ten of them: as many suggestions as there are
templates, categories, distinct tags, distinct technologies and history
entries, up to ten. -/
theorem empty_query_suggestions (toLowerCase : String → String) (templates : List Template)
    (categories : List Category) (searchHistory : List SearchHistoryItem) :
    (∀ query : String, jsLength query < 2 →
      updateSearchSuggestions toLowerCase templates categories searchHistory query = none) ∧
    updateSearchSuggestions toLowerCase templates categories searchHistory "" = none ∧
    (toLowerCase "" = "" →
      (generateSuggestions toLowerCase templates categories searchHistory "").length =
        min 10 (templates.length + categories.length
          + (uniqueStrings (templates.flatMap fun t => t.tags)).length
          + (uniqueStrings (templates.flatMap fun t => t.technologies)).length
          + searchHistory.length)) := by
  refine ⟨fun query hq => by simp [updateSearchSuggestions, hq],
    by simp [updateSearchSuggestions, jsLength], ?_⟩
  intro h
  unfold generateSuggestions jsSort
  simp only [List.length_insertionSort, List.length_take, List.length_append, List.length_map,
    jsIncludes_empty toLowerCase h, List.filter_true]

/-- C19, amended, on a catalogue of two templates, one category and one
history entry. -/
theorem empty_query_suggestions_witness :
    updateSearchSuggestions asciiToLowerCase [specLandingPage, plainPortfolio]
      [{ id := "portfolios", name := "Portfolios" }]
      [{ query := "landing", timestamp := "2025-01-20T08:00:00.000Z" }] "p" = none ∧
    (generateSuggestions asciiToLowerCase [specLandingPage, plainPortfolio]
      [{ id := "portfolios", name := "Portfolios" }]
      [{ query := "landing", timestamp := "2025-01-20T08:00:00.000Z" }] "").length =
        min 10 ([specLandingPage, plainPortfolio].length
          + [({ id := "portfolios", name := "Portfolios" } : Category)].length
          + (uniqueStrings ([specLandingPage, plainPortfolio].flatMap fun t => t.tags)).length
          + (uniqueStrings
              ([specLandingPage, plainPortfolio].flatMap fun t => t.technologies)).length
          + [({ query := "landing", timestamp := "2025-01-20T08:00:00.000Z" } :
              SearchHistoryItem)].length) :=
  ⟨(empty_query_suggestions asciiToLowerCase [specLandingPage, plainPortfolio]
      [{ id := "portfolios", name := "Portfolios" }]
      [{ query := "landing", timestamp := "2025-01-20T08:00:00.000Z" }]).1 "p" (by decide),
   (empty_query_suggestions asciiToLowerCase [specLandingPage, plainPortfolio]
      [{ id := "portfolios", name := "Portfolios" }]
      [{ query := "landing", timestamp := "2025-01-20T08:00:00.000Z" }]).2.2 (by decide)⟩

/-- A template that the query and its search terms match nowhere scores its
popularity boost. -/
theorem score_of_unmatched (toLowerCase : String → String) (templates : List Template)
    (query : String) (h : matchesNowhere toLowerCase templates query = true)
    (template : Template) (hmem : template ∈ templates) :
    scoreTemplate toLowerCase query (searchTerms toLowerCase query) template =
      popularityBoost template := by
  unfold matchesNowhere at h
  rw [List.all_eq_true] at h
  have ht := h template hmem
  rw [List.all_eq_true] at ht
  have hno : ∀ text ∈ toLowerCase query :: searchTerms toLowerCase query,
      jsIncludes (toLowerCase template.name) text = false ∧
      jsIncludes (toLowerCase template.description) text = false ∧
      jsIncludes (toLowerCase template.category) text = false ∧
      (∀ tag ∈ template.tags, jsIncludes (toLowerCase tag) text = false) ∧
      (∀ tech ∈ template.technologies, jsIncludes (toLowerCase tech) text = false) := by
    intro text htext
    have := ht text htext
    simp only [Bool.and_eq_true, Bool.not_eq_true', List.all_eq_true] at this
    obtain ⟨⟨⟨⟨h1, h2⟩, h3⟩, h4⟩, h5⟩ := this
    exact ⟨h1, h2, h3, h4, h5⟩
  obtain ⟨q1, q2, q3, q4, q5⟩ := hno _ (List.mem_cons_self _ _)
  have htags : (template.tags.filter fun tag =>
      jsIncludes (toLowerCase tag) (toLowerCase query)) = [] := by
    rw [List.filter_eq_nil_iff]
    intro tag htag
    simp [q4 tag htag]
  have htech : (template.technologies.filter fun tech =>
      jsIncludes (toLowerCase tech) (toLowerCase query)) = [] := by
    rw [List.filter_eq_nil_iff]
    intro tech htech
    simp [q5 tech htech]
  have hterms : ((searchTerms toLowerCase query).map fun token =>
      (if jsIncludes (toLowerCase template.name) token then 20 else 0)
      + (if jsIncludes (toLowerCase template.description) token then 10 else 0)
      + 15 * (template.tags.filter fun tag => jsIncludes (toLowerCase tag) token).length).sum
      = 0 := by
    rw [List.sum_eq_zero_iff]
    intro x hx
    obtain ⟨token, htoken, rfl⟩ := List.mem_map.1 hx
    obtain ⟨t1, t2, -, t4, -⟩ := hno token (List.mem_cons_of_mem _ htoken)
    have : (template.tags.filter fun tag => jsIncludes (toLowerCase tag) token) = [] := by
      rw [List.filter_eq_nil_iff]
      intro tag htag
      simp [t4 tag htag]
    simp [t1, t2, this]
  rw [scoreTemplate_eq_referenceScore]
  unfold referenceScore popularityBoost
  rw [hterms, htags, htech]
  simp [q1, q2, q3]

/-- C20 as stated fails for a boosted template: the query `zzz` and its one
search term occur in no field of the featured template with 1567 downloads,
and `performAdvancedSearch` returns that template with score 15. -/
theorem unmatched_query_returns_featured :
    matchesNowhere asciiToLowerCase [specLandingPage] "zzz" = true ∧
    performAdvancedSearch asciiToLowerCase [specLandingPage] "zzz" =
      [{ template := specLandingPage, searchScore := 15 }] := by
  decide

/-- C20, amended: when neither the query nor any of its search terms occurs
in a field of any template, `performAdvancedSearch` returns exactly the
templates that are featured or have more than 1000 downloads, each with its
popularity boost as score, sorted by that score; it returns the empty list
when no template of the catalogue is featured or has more than 1000
downloads. -/
theorem unmatched_query_results (toLowerCase : String → String) (templates : List Template)
    (query : String) (h : matchesNowhere toLowerCase templates query = true) :
    performAdvancedSearch toLowerCase templates query =
      jsSort (fun a b => (b.searchScore : Int) - (a.searchScore : Int))
        ((templates.filter fun template => decide (popularityBoost template > 0)).map
          fun template =>
            ({ template := template, searchScore := popularityBoost template } :
              ScoredTemplate)) ∧
    ((templates.all fun template => !template.featured && decide (template.downloads ≤ 1000))
        = true →
      performAdvancedSearch toLowerCase templates query = []) := by
  have hmap : (templates.map fun template =>
        ({ template := template
           searchScore := scoreTemplate toLowerCase query (searchTerms toLowerCase query)
             template } : ScoredTemplate)) =
      templates.map fun template =>
        ({ template := template, searchScore := popularityBoost template } : ScoredTemplate) :=
    List.map_congr_left fun template hmem => by
      rw [score_of_unmatched toLowerCase templates query h template hmem]
  have hmain : performAdvancedSearch toLowerCase templates query =
      jsSort (fun a b => (b.searchScore : Int) - (a.searchScore : Int))
        ((templates.filter fun template => decide (popularityBoost template > 0)).map
          fun template =>
            ({ template := template, searchScore := popularityBoost template } :
              ScoredTemplate)) := by
    unfold performAdvancedSearch
    simp only [hmap, List.filter_map]
    rfl
  refine ⟨hmain, fun hnone => ?_⟩
  rw [hmain]
  have : (templates.filter fun template => decide (popularityBoost template > 0)) = [] := by
    rw [List.filter_eq_nil_iff]
    intro template hmem
    rw [List.all_eq_true] at hnone
    have := hnone template hmem
    simp only [Bool.and_eq_true, Bool.not_eq_true', decide_eq_true_eq] at this
    have hd : ¬ template.downloads > 1000 := by omega
    simp [popularityBoost, this.1, hd]
  rw [this]
  rfl

/-- C20, amended, on a catalogue of a boosted and a plain template: the
query `zzz` returns the boosted template alone, and nothing on the plain
template alone. -/
theorem unmatched_query_results_witness :
    performAdvancedSearch asciiToLowerCase [plainPortfolio, specLandingPage] "zzz" =
      jsSort (fun a b => (b.searchScore : Int) - (a.searchScore : Int))
        (([plainPortfolio, specLandingPage].filter fun template =>
            decide (popularityBoost template > 0)).map
          fun template =>
            ({ template := template, searchScore := popularityBoost template } :
              ScoredTemplate)) ∧
    performAdvancedSearch asciiToLowerCase [plainPortfolio] "zzz" = [] :=
  ⟨(unmatched_query_results asciiToLowerCase [plainPortfolio, specLandingPage] "zzz"
      (by decide)).1,
   (unmatched_query_results asciiToLowerCase [plainPortfolio] "zzz" (by decide)).2
      (by decide)⟩

end SearchManager

namespace FavoritesManager

/-- C26: when the template exists, after `addFavorite` the new entry is first
in the list, it is the only entry with its (template id, collection) pair, the
entries of other pairs are those of before in their order, and the call
returns `true`. -/
theorem addFavorite_no_duplicates (m : FavoritesManager) (templates : List Template)
    (templateId collectionName now : String) (template : Template)
    (h : DataManager.getTemplate templates templateId = some template) :
    (m.addFavorite templates templateId collectionName now).2 = true ∧
    (m.addFavorite templates templateId collectionName now).1.favorites.head? =
      some { templateId := templateId, addedAt := now, collection := collectionName,
             tags := [] } ∧
    ((m.addFavorite templates templateId collectionName now).1.favorites.filter fun f =>
        decide (f.templateId = templateId) && decide (f.collection = collectionName)) =
      [{ templateId := templateId, addedAt := now, collection := collectionName,
         tags := [] }] ∧
    ((m.addFavorite templates templateId collectionName now).1.favorites.filter fun f =>
        !(decide (f.templateId = templateId) && decide (f.collection = collectionName))) =
      m.favorites.filter fun f =>
        !(decide (f.templateId = templateId) && decide (f.collection = collectionName)) := by
  simp only [addFavorite, h, List.head?_cons, List.filter_cons, List.filter_filter,
    decide_True, Bool.and_self, if_true, Bool.not_true, true_and]
  constructor
  · rw [List.cons.injEq]
    refine ⟨rfl, ?_⟩
    rw [List.filter_eq_nil_iff]
    intro f _
    by_cases h1 : f.templateId = templateId <;> by_cases h2 : f.collection = collectionName <;>
      simp [h1, h2]
  · simp only [Bool.false_eq_true, if_false]
    refine List.filter_congr fun f _ => ?_
    by_cases h1 : f.templateId = templateId <;> by_cases h2 : f.collection = collectionName <;>
      simp [h1, h2]

/-- C26 on a list that already holds the pair twice: adding `tpl-001` to
`Favorites` again leaves one such entry, in front. -/
theorem addFavorite_no_duplicates_witness :
    DataManager.getTemplate [specLandingPage, plainPortfolio] "tpl-001" = some specLandingPage ∧
    (sampleFavorites.addFavorite [specLandingPage, plainPortfolio] "tpl-001" "Favorites"
      "2025-02-01T00:00:00.000Z").1.favorites.head? =
      some { templateId := "tpl-001", addedAt := "2025-02-01T00:00:00.000Z",
             collection := "Favorites", tags := [] } ∧
    ((sampleFavorites.addFavorite [specLandingPage, plainPortfolio] "tpl-001" "Favorites"
      "2025-02-01T00:00:00.000Z").1.favorites.filter fun f =>
        decide (f.templateId = "tpl-001") && decide (f.collection = "Favorites")) =
      [{ templateId := "tpl-001", addedAt := "2025-02-01T00:00:00.000Z",
         collection := "Favorites", tags := [] }] :=
  ⟨by decide,
   (addFavorite_no_duplicates sampleFavorites [specLandingPage, plainPortfolio] "tpl-001"
      "Favorites" "2025-02-01T00:00:00.000Z" specLandingPage (by decide)).2.1,
   (addFavorite_no_duplicates sampleFavorites [specLandingPage, plainPortfolio] "tpl-001"
      "Favorites" "2025-02-01T00:00:00.000Z" specLandingPage (by decide)).2.2.1⟩

end FavoritesManager

namespace SearchManager

theorem startsWithChars_iff (s t : List Char) :
    startsWithChars s t = true ↔ ∃ b, s = t ++ b := by
  induction t generalizing s with
  | nil => simp [startsWithChars]
  | cons d ds ih =>
    cases s with
    | nil => simp [startsWithChars]
    | cons c cs =>
      simp only [startsWithChars, Bool.and_eq_true, decide_eq_true_eq, ih, List.cons_append,
        List.cons.injEq]
      constructor
      · rintro ⟨rfl, b, rfl⟩
        exact ⟨b, rfl, rfl⟩
      · rintro ⟨b, rfl, rfl⟩
        exact ⟨rfl, b, rfl⟩

theorem includesChars_iff (s t : List Char) :
    includesChars s t = true ↔ ∃ a b, s = a ++ t ++ b := by
  induction s with
  | nil =>
    simp only [includesChars, startsWithChars_iff]
    constructor
    · rintro ⟨b, h⟩
      exact ⟨[], b, by simpa using h⟩
    · rintro ⟨a, b, h⟩
      have h1 : a ++ t ++ b = [] := h.symm
      simp only [List.append_eq_nil] at h1
      exact ⟨[], by simp [h1.1.2]⟩
  | cons c cs ih =>
    simp only [includesChars, Bool.or_eq_true, startsWithChars_iff, ih]
    constructor
    · rintro (⟨b, h⟩ | ⟨a, b, h⟩)
      · exact ⟨[], b, by simpa using h⟩
      · exact ⟨c :: a, b, by simp [h]⟩
    · rintro ⟨a, b, h⟩
      cases a with
      | nil => left; exact ⟨b, by simpa using h⟩
      | cons a0 a =>
        right
        simp only [List.cons_append, List.cons.injEq] at h
        exact ⟨a, b, h.2⟩

theorem includesChars_trans (s t u : List Char) (hst : includesChars s t = true)
    (htu : includesChars t u = true) : includesChars s u = true := by
  rw [includesChars_iff] at hst htu ⊢
  obtain ⟨a, b, rfl⟩ := hst
  obtain ⟨c, d, rfl⟩ := htu
  exact ⟨a ++ c, d ++ b, by simp [List.append_assoc]⟩

theorem splitChars_head (p : Char → Bool) (l : List Char) :
    ∃ w ws, splitChars p l = w :: ws ∧ ∃ b, l = w ++ b := by
  induction l with
  | nil => exact ⟨[], [], rfl, [], rfl⟩
  | cons c cs ih =>
    obtain ⟨w, ws, hs, b, hb⟩ := ih
    by_cases hc : p c = true
    · exact ⟨[], splitChars p cs, by simp [splitChars, hc], c :: cs, rfl⟩
    · exact ⟨c :: w, ws, by simp [splitChars, hc, hs], b, by simp [hb]⟩

theorem splitChars_piece (p : Char → Bool) (l : List Char) :
    ∀ piece ∈ splitChars p l, ∃ a b, l = a ++ piece ++ b := by
  induction l with
  | nil => intro piece h; simp [splitChars] at h; subst h; exact ⟨[], [], rfl⟩
  | cons c cs ih =>
    intro piece h
    simp only [splitChars] at h
    by_cases hc : p c = true
    · simp only [hc, if_true, List.mem_cons] at h
      rcases h with rfl | h
      · exact ⟨[], c :: cs, rfl⟩
      · obtain ⟨a, b, hab⟩ := ih piece h
        exact ⟨c :: a, b, by simp [hab]⟩
    · obtain ⟨w, ws, hs, b, hb⟩ := splitChars_head p cs
      simp only [hc, hs, Bool.false_eq_true, if_false, List.mem_cons] at h
      rcases h with rfl | h
      · exact ⟨[], b, by simp [hb]⟩
      · obtain ⟨a, b', hab⟩ := ih piece (by simp [hs, h])
        exact ⟨c :: a, b', by simp [hab]⟩

/-- Every search term of a query occurs in the lower-cased query. -/
theorem searchTerm_in_query (toLowerCase : String → String) (query term : String)
    (h : term ∈ searchTerms toLowerCase query) :
    jsIncludes (toLowerCase query) term = true := by
  unfold searchTerms jsSplit at h
  obtain ⟨piece, hpiece, rfl⟩ := List.mem_map.1 (List.mem_filter.1 h).1
  exact (includesChars_iff _ _).2 (splitChars_piece _ _ piece hpiece)

theorem jsIncludes_trans (s t u : String) (hst : jsIncludes s t = true)
    (htu : jsIncludes t u = true) : jsIncludes s u = true :=
  includesChars_trans _ _ _ hst htu

/-- A template scores at least 100 plus 20 per search term when its name
contains the whole query. -/
theorem score_of_name_match (toLowerCase : String → String) (query : String)
    (template : Template)
    (h : jsIncludes (toLowerCase template.name) (toLowerCase query) = true) :
    100 + 20 * (searchTerms toLowerCase query).length ≤
      scoreTemplate toLowerCase query (searchTerms toLowerCase query) template := by
  rw [scoreTemplate_eq_referenceScore]
  unfold referenceScore
  have hterms : ∀ terms : List String,
      (∀ term ∈ terms, jsIncludes (toLowerCase template.name) term = true) →
      20 * terms.length ≤ (terms.map fun token =>
        (if jsIncludes (toLowerCase template.name) token then 20 else 0)
        + (if jsIncludes (toLowerCase template.description) token then 10 else 0)
        + 15 * (template.tags.filter fun tag =>
            jsIncludes (toLowerCase tag) token).length).sum := by
    intro terms
    induction terms with
    | nil => intro _; simp
    | cons term terms ih =>
      intro hall
      have h1 := hall term (List.mem_cons_self _ _)
      have h2 := ih fun t ht => hall t (List.mem_cons_of_mem _ ht)
      simp only [List.map_cons, List.sum_cons, List.length_cons, h1, if_true]
      omega
  have := hterms (searchTerms toLowerCase query) fun term hterm =>
    jsIncludes_trans _ _ _ h (searchTerm_in_query toLowerCase query term hterm)
  simp only [h, if_true]
  omega

/-- C30: when the lower-cased name of a template contains the lower-cased
query, the score that `performAdvancedSearch` computes for it is at least
100 + 20 k, where k is the number of search terms (the non-empty
space-separated tokens) of the query, and every such term is found in the
name. -/
theorem double_counting_lower_bound (toLowerCase : String → String) (query : String)
    (template : Template)
    (h : jsIncludes (toLowerCase template.name) (toLowerCase query) = true) :
    100 + 20 * (searchTerms toLowerCase query).length ≤
      scoreTemplate toLowerCase query (searchTerms toLowerCase query) template ∧
    ((searchTerms toLowerCase query).all fun term =>
      jsIncludes (toLowerCase template.name) term) = true ∧
    ∀ templates : List Template, template ∈ templates →
      ({ template := template
         searchScore := scoreTemplate toLowerCase query (searchTerms toLowerCase query)
           template } : ScoredTemplate) ∈ performAdvancedSearch toLowerCase templates query := by
  have hscore := score_of_name_match toLowerCase query template h
  refine ⟨hscore, ?_, fun templates hmem => ?_⟩
  · rw [List.all_eq_true]
    intro term hterm
    exact jsIncludes_trans _ _ _ h (searchTerm_in_query toLowerCase query term hterm)
  · rw [(performAdvancedSearch_perm toLowerCase templates query).mem_iff, List.mem_filter]
    refine ⟨List.mem_map.2 ⟨template, hmem, rfl⟩, ?_⟩
    simp only [gt_iff_lt, decide_eq_true_eq]
    omega

/-- C30 on the query `Landing Page` (two search terms) and the landing page
record of the spec: the name contains the whole query and the score is at
least 140. -/
theorem double_counting_lower_bound_witness :
    jsIncludes (asciiToLowerCase specLandingPage.name) (asciiToLowerCase "Landing Page") = true ∧
    (searchTerms asciiToLowerCase "Landing Page").length = 2 ∧
    100 + 20 * (searchTerms asciiToLowerCase "Landing Page").length ≤
      scoreTemplate asciiToLowerCase "Landing Page" (searchTerms asciiToLowerCase "Landing Page")
        specLandingPage :=
  ⟨by decide, by decide,
   (double_counting_lower_bound asciiToLowerCase "Landing Page" specLandingPage
      (by decide)).1⟩

/-- A template that passes the text filter of `searchTemplates` scores more
than 0 in the ranked search. -/
theorem score_pos_of_matchesSearchTerm (toLowerCase : String → String) (query : String)
    (terms : List String) (template : Template)
    (h : TemplateManager.matchesSearchTerm toLowerCase (toLowerCase query) template = true) :
    0 < scoreTemplate toLowerCase query terms template := by
  rw [scoreTemplate_eq_referenceScore]
  unfold referenceScore
  simp only [TemplateManager.matchesSearchTerm, Bool.or_eq_true, List.any_eq_true] at h
  rcases h with ((h | h) | ⟨tag, htag, h⟩) | ⟨tech, htech, h⟩
  · simp only [h, if_true]; omega
  · simp only [h, if_true]; omega
  · have : 0 < (template.tags.filter fun tag =>
        jsIncludes (toLowerCase tag) (toLowerCase query)).length :=
      List.length_pos_of_mem (List.mem_filter.2 ⟨htag, h⟩)
    omega
  · have : 0 < (template.technologies.filter fun tech =>
        jsIncludes (toLowerCase tech) (toLowerCase query)).length :=
      List.length_pos_of_mem (List.mem_filter.2 ⟨htech, h⟩)
    omega

end SearchManager

namespace TemplateManager

theorem searchTemplates_returned (toLowerCase : String → String)
    (localeCompare : String → String → Int) (thisTemplates : List Template) (query : String)
    (filters : SearchFilters) :
    (searchTemplates toLowerCase localeCompare thisTemplates query filters).returned =
      if filters.sort = "newest" then
        jsSort (fun a b => b.createdAt - a.createdAt)
          (keptTemplates toLowerCase thisTemplates query filters)
      else if filters.sort = "popular" then
        jsSort (fun a b => (b.downloads : Int) - (a.downloads : Int))
          (keptTemplates toLowerCase thisTemplates query filters)
      else if filters.sort = "rating" then
        jsSort (fun a b => (b.rating : Int) - (a.rating : Int))
          (keptTemplates toLowerCase thisTemplates query filters)
      else if filters.sort = "name" then
        jsSort (fun a b => localeCompare a.name b.name)
          (keptTemplates toLowerCase thisTemplates query filters)
      else keptTemplates toLowerCase thisTemplates query filters := rfl

theorem searchTemplates_returned_perm (toLowerCase : String → String)
    (localeCompare : String → String → Int) (thisTemplates : List Template) (query : String)
    (filters : SearchFilters) :
    (searchTemplates toLowerCase localeCompare thisTemplates query filters).returned.Perm
      (keptTemplates toLowerCase thisTemplates query filters) := by
  rw [searchTemplates_returned]
  split_ifs
  · exact SearchManager.perm_jsSort _ _
  · exact SearchManager.perm_jsSort _ _
  · exact SearchManager.perm_jsSort _ _
  · exact SearchManager.perm_jsSort _ _
  · exact List.Perm.refl _

theorem mem_keptTemplates (toLowerCase : String → String) (thisTemplates : List Template)
    (query : String) (filters : SearchFilters) (hq : jsTrim query ≠ "") (template : Template)
    (h : template ∈ keptTemplates toLowerCase thisTemplates query filters) :
    template ∈ thisTemplates ∧
      matchesSearchTerm toLowerCase (toLowerCase query) template = true := by
  have hne : query ≠ "" := by
    rintro rfl
    exact hq (by decide)
  unfold keptTemplates at h
  simp only [hne, hq, ne_eq, not_false_eq_true, decide_True, Bool.and_self, if_true] at h
  split at h
  · exact List.mem_filter.1 (List.mem_filter.1 h).1
  · exact List.mem_filter.1 h

/-- C29: for a query that is not blank, every template returned by
`searchTemplates` (so every template of the catalogue that passes its text
filter and the category filter) has a score greater than 0 in
`performAdvancedSearch` for the same query and is among the templates of the
ranked result. -/
theorem ranked_search_subsumes_text_filter (toLowerCase : String → String)
    (localeCompare : String → String → Int) (templates : List Template) (query : String)
    (filters : SearchFilters) (hq : jsTrim query ≠ "") (template : Template)
    (h : template ∈ (searchTemplates toLowerCase localeCompare templates query filters).returned) :
    0 < SearchManager.scoreTemplate toLowerCase query
      (SearchManager.searchTerms toLowerCase query) template ∧
    template ∈ (SearchManager.performAdvancedSearch toLowerCase templates query).map
      fun result => result.template := by
  obtain ⟨hmem, hmatch⟩ := mem_keptTemplates toLowerCase templates query filters hq template
    ((searchTemplates_returned_perm toLowerCase localeCompare templates query filters).mem_iff.1 h)
  have hpos := SearchManager.score_pos_of_matchesSearchTerm toLowerCase query
    (SearchManager.searchTerms toLowerCase query) template hmatch
  refine ⟨hpos, ?_⟩
  rw [(SearchManager.performAdvancedSearch_templates_perm toLowerCase templates query).mem_iff,
    List.mem_filter]
  exact ⟨hmem, by simpa using hpos⟩

/-- C29 on the query `portfolio` over three templates: the template found by
its description only is returned by the text filter and by the ranked
search. -/
theorem ranked_search_subsumes_text_filter_witness :
    portfolioBlog ∈ (searchTemplates asciiToLowerCase (fun _ _ => 0)
      [specLandingPage, plainPortfolio, portfolioBlog] "portfolio"
      { category := "", sort := "newest" }).returned ∧
    0 < SearchManager.scoreTemplate asciiToLowerCase "portfolio"
      (SearchManager.searchTerms asciiToLowerCase "portfolio") portfolioBlog ∧
    portfolioBlog ∈ (SearchManager.performAdvancedSearch asciiToLowerCase
      [specLandingPage, plainPortfolio, portfolioBlog] "portfolio").map
      fun result => result.template :=
  ⟨by decide,
   ranked_search_subsumes_text_filter asciiToLowerCase (fun _ _ => 0)
     [specLandingPage, plainPortfolio, portfolioBlog] "portfolio"
     { category := "", sort := "newest" } (by decide) portfolioBlog (by decide)⟩

theorem sorted_jsSort_of_key {α : Type} (key : α → Int) (l : List α) :
    (jsSort (fun a b => key b - key a) l).Sorted fun a b => key a ≥ key b := by
  haveI : IsTotal α (fun a b => key b - key a ≤ 0) := ⟨fun a b => by omega⟩
  haveI : IsTrans α (fun a b => key b - key a ≤ 0) := ⟨fun a b c hab hbc => by omega⟩
  have hsorted : List.Pairwise (fun a b : α => key b - key a ≤ 0)
      (jsSort (fun a b => key b - key a) l) :=
    List.sorted_insertionSort (fun a b : α => key b - key a ≤ 0) l
  refine List.Pairwise.imp ?_ hsorted
  intro a b hab
  show key a ≥ key b
  omega

theorem sorted_jsSort_of_compare {α : Type} (compare : α → α → Int)
    (htotal : ∀ a b, compare a b ≤ 0 ∨ compare b a ≤ 0)
    (htrans : ∀ a b c, compare a b ≤ 0 → compare b c ≤ 0 → compare a c ≤ 0) (l : List α) :
    (jsSort compare l).Sorted fun a b => compare a b ≤ 0 := by
  haveI : IsTotal α (fun a b => compare a b ≤ 0) := ⟨htotal⟩
  haveI : IsTrans α (fun a b => compare a b ≤ 0) := ⟨htrans⟩
  exact List.sorted_insertionSort (fun a b : α => compare a b ≤ 0) l

theorem ordinalCompare_le (x y : String) : ordinalCompare x y ≤ 0 ↔ x ≤ y := by
  unfold ordinalCompare
  split_ifs with h1 h2
  · simpa using le_of_lt h1
  · simpa using le_of_eq h2
  · simp only [Int.reduceLE, false_iff, not_le]
    exact lt_of_le_of_ne (not_lt.1 h1) (Ne.symm h2)

/-- C25 as stated fails on relevance: for the query `portfolio` with the sort
key `newest`, `searchTemplates` returns the newer template, whose ranked
score is 60, before the older one, whose ranked score is 205. -/
theorem newest_first_not_most_relevant :
    (searchTemplates asciiToLowerCase ordinalCompare [plainPortfolio, portfolioBlog]
      "portfolio" { category := "", sort := "newest" }).returned =
      [portfolioBlog, plainPortfolio] ∧
    SearchManager.scoreTemplate asciiToLowerCase "portfolio"
      (SearchManager.searchTerms asciiToLowerCase "portfolio") portfolioBlog = 60 ∧
    SearchManager.scoreTemplate asciiToLowerCase "portfolio"
      (SearchManager.searchTerms asciiToLowerCase "portfolio") plainPortfolio = 205 := by
  decide

/-- C25, amended: the list returned by `searchTemplates` is a rearrangement
of the templates that pass its text and category filters, ordered by the
selected sort key alone: for `newest` by non-increasing `createdAt`, for
`popular` by non-increasing downloads, for `name` by `localeCompare` of the
names (when `localeCompare` is a consistent comparator); templates with equal
key keep the relative order they had. -/
theorem searchTemplates_ordered_by_sort_key (toLowerCase : String → String)
    (localeCompare : String → String → Int) (templates : List Template) (query : String)
    (filters : SearchFilters) :
    (searchTemplates toLowerCase localeCompare templates query filters).returned.Perm
      (keptTemplates toLowerCase templates query filters) ∧
    (filters.sort = "newest" →
      (searchTemplates toLowerCase localeCompare templates query filters).returned.Sorted
        (fun a b => a.createdAt ≥ b.createdAt) ∧
      ∀ v : Int,
        ((searchTemplates toLowerCase localeCompare templates query filters).returned.filter
          fun t => decide (t.createdAt = v)) =
        (keptTemplates toLowerCase templates query filters).filter
          fun t => decide (t.createdAt = v)) ∧
    (filters.sort = "popular" →
      (searchTemplates toLowerCase localeCompare templates query filters).returned.Sorted
        (fun a b => a.downloads ≥ b.downloads) ∧
      ∀ v : Nat,
        ((searchTemplates toLowerCase localeCompare templates query filters).returned.filter
          fun t => decide (t.downloads = v)) =
        (keptTemplates toLowerCase templates query filters).filter
          fun t => decide (t.downloads = v)) ∧
    (filters.sort = "name" →
      (∀ x y, localeCompare x y ≤ 0 ∨ localeCompare y x ≤ 0) →
      (∀ x y z, localeCompare x y ≤ 0 → localeCompare y z ≤ 0 → localeCompare x z ≤ 0) →
      (searchTemplates toLowerCase localeCompare templates query filters).returned.Sorted
        (fun a b => localeCompare a.name b.name ≤ 0) ∧
      ∀ v : String,
        ((searchTemplates toLowerCase localeCompare templates query filters).returned.filter
          fun t => decide (t.name = v)) =
        (keptTemplates toLowerCase templates query filters).filter
          fun t => decide (t.name = v)) := by
  refine ⟨searchTemplates_returned_perm _ _ _ _ _, fun h => ?_, fun h => ?_, fun h ht htr => ?_⟩
  · rw [searchTemplates_returned]
    simp only [h, if_true]
    refine ⟨sorted_jsSort_of_key (fun t : Template => t.createdAt) _, fun v => ?_⟩
    refine SearchManager.filter_jsSort _ _ (fun a b ha hb => ?_) _
    have ha' : a.createdAt = v := by simpa using ha
    have hb' : b.createdAt = v := by simpa using hb
    omega
  · rw [searchTemplates_returned]
    simp only [h, if_true]
    refine ⟨?_, fun v => ?_⟩
    · have := sorted_jsSort_of_key (fun t : Template => (t.downloads : Int))
        (keptTemplates toLowerCase templates query filters)
      refine List.Pairwise.imp ?_ this
      intro a b hab
      show a.downloads ≥ b.downloads
      have hab' : (a.downloads : Int) ≥ (b.downloads : Int) := hab
      omega
    · refine SearchManager.filter_jsSort _ _ (fun a b ha hb => ?_) _
      have ha' : a.downloads = v := by simpa using ha
      have hb' : b.downloads = v := by simpa using hb
      omega
  · rw [searchTemplates_returned]
    simp only [h, if_true]
    refine ⟨sorted_jsSort_of_compare (fun a b : Template => localeCompare a.name b.name)
      (fun a b => ht _ _) (fun a b c => htr _ _ _) _, fun v => ?_⟩
    refine SearchManager.filter_jsSort _ _ (fun a b ha hb => ?_) _
    have ha' : a.name = v := by simpa using ha
    have hb' : b.name = v := by simpa using hb
    rw [ha', hb']
    exact (ht v v).elim id id

/-- C25, amended, on the query `portfolio` over three templates with the
sort keys `newest`, `popular` and `name`. -/
theorem searchTemplates_ordered_by_sort_key_witness :
    (searchTemplates asciiToLowerCase ordinalCompare
      [specLandingPage, plainPortfolio, portfolioBlog] "portfolio"
      { category := "", sort := "newest" }).returned.Sorted
        (fun a b => a.createdAt ≥ b.createdAt) ∧
    (searchTemplates asciiToLowerCase ordinalCompare
      [specLandingPage, plainPortfolio, portfolioBlog] "portfolio"
      { category := "", sort := "popular" }).returned.Sorted
        (fun a b => a.downloads ≥ b.downloads) ∧
    (searchTemplates asciiToLowerCase ordinalCompare
      [specLandingPage, plainPortfolio, portfolioBlog] "portfolio"
      { category := "", sort := "name" }).returned.Sorted
        (fun a b => ordinalCompare a.name b.name ≤ 0) :=
  ⟨((searchTemplates_ordered_by_sort_key asciiToLowerCase ordinalCompare
      [specLandingPage, plainPortfolio, portfolioBlog] "portfolio"
      { category := "", sort := "newest" }).2.1 rfl).1,
   ((searchTemplates_ordered_by_sort_key asciiToLowerCase ordinalCompare
      [specLandingPage, plainPortfolio, portfolioBlog] "portfolio"
      { category := "", sort := "popular" }).2.2.1 rfl).1,
   ((searchTemplates_ordered_by_sort_key asciiToLowerCase ordinalCompare
      [specLandingPage, plainPortfolio, portfolioBlog] "portfolio"
      { category := "", sort := "name" }).2.2.2 rfl
      (fun x y => by
        rw [ordinalCompare_le, ordinalCompare_le]
        exact le_total x y)
      (fun x y z hxy hyz => by
        rw [ordinalCompare_le] at hxy hyz ⊢
        exact le_trans hxy hyz)).1⟩

/-- C28 fails when no filter applies: with an empty query, no category and
the sort key `popular`, `this.templates` holds the two templates in the other
order after the call; with the query `portfolio` it is left as it was. -/
theorem searchTemplates_reorders_catalogue :
    (searchTemplates asciiToLowerCase ordinalCompare [plainPortfolio, specLandingPage] ""
      { category := "", sort := "popular" }).templates = [specLandingPage, plainPortfolio] ∧
    (searchTemplates asciiToLowerCase ordinalCompare [plainPortfolio, specLandingPage]
      "portfolio" { category := "", sort := "popular" }).templates =
      [plainPortfolio, specLandingPage] := by
  decide

end TemplateManager

namespace SearchManager

theorem featureChecks_iff (now : Int) (template : Template) (feature : Feature) :
    featureChecks now template feature = true ↔
      (match feature with
        | Feature.featured => template.featured = true
        | Feature.popular => template.downloads ≥ 1000
        | Feature.recent => template.createdAt > now - 7 * 24 * 60 * 60 * 1000) := by
  cases feature <;> simp [featureChecks]

theorem length_pos_iff_ne_nil {α : Type} (l : List α) : l.length > 0 ↔ l ≠ [] := by
  cases l <;> simp

theorem nested_guards (c1 c2 c3 c4 : Prop) [Decidable c1] [Decidable c2] [Decidable c3]
    [Decidable c4] :
    (if c1 then false else if c2 then false else if c3 then false else if c4 then false
      else true) = true ↔ ¬ c1 ∧ ¬ c2 ∧ ¬ c3 ∧ ¬ c4 := by
  split_ifs <;> simp [*]

theorem group_guard {α : Type} (l : List α) (g : Prop) :
    ¬ (l.length > 0 ∧ ¬ g) ↔ (l = [] ∨ g) := by
  cases l with
  | nil => simp
  | cons x xs => simp

theorem passesFilters_iff (filters : AdvancedFilters) (now : Int) (template : Template) :
    passesFilters filters now template = true ↔ AcceptedByEveryGroup filters now template := by
  unfold passesFilters AcceptedByEveryGroup
  rw [nested_guards, group_guard, group_guard, group_guard, group_guard]
  simp only [List.any_eq_true, decide_eq_true_eq, featureChecks_iff]

/-- C22: a template is kept by `executeAdvancedSearch` exactly when it is in
the catalogue and every non-empty filter group accepts it; the kept templates
stay in catalogue order, and the filter set with four empty groups returns
the whole catalogue. -/
theorem executeAdvancedSearch_keeps_accepted (templates : List Template)
    (filters : AdvancedFilters) (now : Int) :
    (∀ template, template ∈ executeAdvancedSearch templates filters now ↔
      template ∈ templates ∧ AcceptedByEveryGroup filters now template) ∧
    (∀ template, passesFilters filters now template = true ↔
      AcceptedByEveryGroup filters now template) ∧
    (executeAdvancedSearch templates filters now).Sublist templates ∧
    executeAdvancedSearch templates
      { difficulties := [], technologies := [], tags := [], features := [] } now = templates := by
  refine ⟨fun template => ?_, fun template => passesFilters_iff _ _ _, List.filter_sublist _, ?_⟩
  · unfold executeAdvancedSearch
    rw [List.mem_filter, passesFilters_iff]
  · unfold executeAdvancedSearch
    rw [List.filter_eq_self]
    intro template _
    rfl

theorem scoreRawTemplate_toRaw (toLowerCase : String → String) (query : String)
    (terms : List String) (template : Template) :
    scoreRawTemplate toLowerCase query terms template.toRaw =
      Except.ok (scoreTemplate toLowerCase query terms template) := rfl

theorem scoreAllRaw_toRaw (toLowerCase : String → String) (query : String)
    (terms : List String) (templates : List Template) :
    scoreAllRaw toLowerCase query terms (templates.map Template.toRaw) =
      Except.ok (templates.map fun template =>
        (template.toRaw, scoreTemplate toLowerCase query terms template)) := by
  induction templates with
  | nil => rfl
  | cons template templates ih =>
    simp only [List.map_cons, scoreAllRaw, scoreRawTemplate_toRaw, ih]

theorem performAdvancedSearchRaw_toRaw (toLowerCase : String → String)
    (templates : List Template) (query : String) :
    performAdvancedSearchRaw toLowerCase (templates.map Template.toRaw) query =
      Except.ok ((performAdvancedSearch toLowerCase templates query).map fun result =>
        (result.template.toRaw, result.searchScore)) := by
  unfold performAdvancedSearchRaw performAdvancedSearch
  simp only [scoreAllRaw_toRaw]
  congr 1
  have hmap : (templates.map fun template =>
        (template.toRaw,
          scoreTemplate toLowerCase query (searchTerms toLowerCase query) template)) =
      (templates.map fun template =>
        ({ template := template
           searchScore := scoreTemplate toLowerCase query (searchTerms toLowerCase query)
             template } : ScoredTemplate)).map
        fun result => (result.template.toRaw, result.searchScore) := by
    rw [List.map_map]
    rfl
  rw [hmap, List.filter_map]
  unfold jsSort
  exact (List.map_insertionSort
    (fun a b : ScoredTemplate => (b.searchScore : Int) - (a.searchScore : Int) ≤ 0)
    (fun a b : RawTemplate × Nat => (b.2 : Int) - (a.2 : Int) ≤ 0)
    (fun result : ScoredTemplate => (result.template.toRaw, result.searchScore)) _
    fun a _ b _ => Iff.rfl).symm

theorem passesFiltersRaw_toRaw (filters : AdvancedFilters) (now : Int) (template : Template) :
    passesFiltersRaw filters now template.toRaw =
      Except.ok (passesFilters filters now template) := by
  have hf : (fun feature : Feature =>
      match feature with
      | Feature.featured => template.featured
      | Feature.popular => decide ((some template.downloads).getD 0 ≥ 1000)
      | Feature.recent => decide (template.createdAt > now - 7 * 24 * 60 * 60 * 1000)) =
      fun feature => featureChecks now template feature := by
    funext feature
    cases feature <;> rfl
  unfold passesFiltersRaw passesFilters
  simp only [Template.toRaw, hf]
  by_cases h1 : filters.difficulties.length > 0 ∧ ¬ template.difficulty ∈ filters.difficulties
  · rw [if_pos h1, if_pos h1]
  · rw [if_neg h1, if_neg h1]
    by_cases h2 : filters.technologies.length > 0
    · rw [if_pos h2]
      cases h2a : (filters.technologies.any fun tech => decide (tech ∈ template.technologies))
      · simp [h2]
      · simp only [h2, true_and, not_true_eq_false, if_false]
        by_cases h3 : filters.tags.length > 0
        · rw [if_pos h3]
          cases h3a : (filters.tags.any fun tag => decide (tag ∈ template.tags))
          · simp [h3]
          · simp only [h3, true_and, not_true_eq_false, if_false]
            split_ifs <;> rfl
        · rw [if_neg h3]
          simp only [h3, false_and, if_false]
          split_ifs <;> rfl
    · rw [if_neg h2]
      simp only [h2, false_and, if_false]
      by_cases h3 : filters.tags.length > 0
      · rw [if_pos h3]
        cases h3a : (filters.tags.any fun tag => decide (tag ∈ template.tags))
        · simp [h3]
        · simp only [h3, true_and, not_true_eq_false, if_false]
          split_ifs <;> rfl
      · rw [if_neg h3]
        simp only [h3, false_and, if_false]
        split_ifs <;> rfl

theorem executeAdvancedSearchRaw_toRaw (filters : AdvancedFilters) (now : Int)
    (templates : List Template) :
    executeAdvancedSearchRaw filters now (templates.map Template.toRaw) =
      Except.ok ((executeAdvancedSearch templates filters now).map Template.toRaw) := by
  induction templates with
  | nil => rfl
  | cons template templates ih =>
    simp only [List.map_cons, executeAdvancedSearchRaw, passesFiltersRaw_toRaw, ih]
    unfold executeAdvancedSearch
    cases h : passesFilters filters now template <;> simp [List.filter_cons, h]

theorem except_error_eq {α : Type} (e : JsError) :
    (Except.error e : Except JsError α) = Except.error JsError.typeError := by
  cases e
  rfl

theorem scoreRawTemplate_missing (toLowerCase : String → String) (query : String)
    (terms : List String) (template : RawTemplate)
    (h : template.description = none ∨ template.tags = none ∨ template.technologies = none) :
    scoreRawTemplate toLowerCase query terms template = Except.error JsError.typeError := by
  unfold scoreRawTemplate
  cases hd : template.description with
  | none => rfl
  | some description =>
    cases ht : template.tags with
    | none => rfl
    | some tags =>
      cases hc : template.technologies with
      | none => rfl
      | some technologies => simp [hd, ht, hc] at h

theorem scoreAllRaw_missing (toLowerCase : String → String) (query : String)
    (terms : List String) (templates : List RawTemplate)
    (h : ∃ template ∈ templates,
      template.description = none ∨ template.tags = none ∨ template.technologies = none) :
    scoreAllRaw toLowerCase query terms templates = Except.error JsError.typeError := by
  induction templates with
  | nil => simp at h
  | cons template templates ih =>
    unfold scoreAllRaw
    cases hs : scoreRawTemplate toLowerCase query terms template with
    | error e => exact except_error_eq e
    | ok score =>
      obtain ⟨t, ht, hmiss⟩ := h
      rcases List.mem_cons.1 ht with rfl | ht
      · rw [scoreRawTemplate_missing toLowerCase query terms t hmiss] at hs
        cases hs
      · simp only [ih ⟨t, ht, hmiss⟩]

theorem passesFiltersRaw_missing (filters : AdvancedFilters) (now : Int)
    (template : RawTemplate)
    (hd : filters.difficulties = [] ∨ template.difficulty ∈ filters.difficulties)
    (hf : filters.technologies ≠ []) (ht : template.technologies = none) :
    passesFiltersRaw filters now template = Except.error JsError.typeError := by
  unfold passesFiltersRaw
  have h1 : ¬ (filters.difficulties.length > 0 ∧ ¬ template.difficulty ∈ filters.difficulties) :=
    (group_guard _ _).2 hd
  have h2 : filters.technologies.length > 0 := (length_pos_iff_ne_nil _).2 hf
  rw [if_neg h1]
  simp only [h2, if_true, ht]

theorem executeAdvancedSearchRaw_missing (filters : AdvancedFilters) (now : Int)
    (templates : List RawTemplate)
    (h : ∃ template ∈ templates,
      (filters.difficulties = [] ∨ template.difficulty ∈ filters.difficulties) ∧
      filters.technologies ≠ [] ∧ template.technologies = none) :
    executeAdvancedSearchRaw filters now templates = Except.error JsError.typeError := by
  induction templates with
  | nil => simp at h
  | cons template templates ih =>
    unfold executeAdvancedSearchRaw
    cases hs : passesFiltersRaw filters now template with
    | error e => exact except_error_eq e
    | ok keep =>
      obtain ⟨t, ht, hd, hf, hmiss⟩ := h
      rcases List.mem_cons.1 ht with rfl | ht
      · rw [passesFiltersRaw_missing filters now t hd hf hmiss] at hs
        cases hs
      · simp only [ih ⟨t, ht, hd, hf, hmiss⟩]

theorem passesFiltersRaw_missing_tags (filters : AdvancedFilters) (now : Int)
    (template : RawTemplate)
    (hd : filters.difficulties = [] ∨ template.difficulty ∈ filters.difficulties)
    (hf : filters.technologies = []) (hg : filters.tags ≠ []) (ht : template.tags = none) :
    passesFiltersRaw filters now template = Except.error JsError.typeError := by
  unfold passesFiltersRaw
  have h1 : ¬ (filters.difficulties.length > 0 ∧ ¬ template.difficulty ∈ filters.difficulties) :=
    (group_guard _ _).2 hd
  have h3 : filters.tags.length > 0 := (length_pos_iff_ne_nil _).2 hg
  rw [if_neg h1]
  simp only [hf, List.length_nil, gt_iff_lt, lt_self_iff_false, if_false, h3, if_true, ht]

theorem executeAdvancedSearchRaw_missing_tags (filters : AdvancedFilters) (now : Int)
    (templates : List RawTemplate)
    (h : ∃ template ∈ templates,
      (filters.difficulties = [] ∨ template.difficulty ∈ filters.difficulties) ∧
      filters.technologies = [] ∧ filters.tags ≠ [] ∧ template.tags = none) :
    executeAdvancedSearchRaw filters now templates = Except.error JsError.typeError := by
  induction templates with
  | nil => simp at h
  | cons template templates ih =>
    unfold executeAdvancedSearchRaw
    cases hs : passesFiltersRaw filters now template with
    | error e => exact except_error_eq e
    | ok keep =>
      obtain ⟨t, ht, hd, hf, hg, hmiss⟩ := h
      rcases List.mem_cons.1 ht with rfl | ht
      · rw [passesFiltersRaw_missing_tags filters now t hd hf hg hmiss] at hs
        cases hs
      · simp only [ih ⟨t, ht, hd, hf, hg, hmiss⟩]

/-- C21 as stated fails: on the landing page record without its `tags`
field, `performAdvancedSearch` throws a `TypeError` for the query `modern`,
and `executeAdvancedSearch` throws one for a filter set with a selected tag. -/
theorem missing_tags_throw :
    performAdvancedSearchRaw asciiToLowerCase [untaggedLandingPage] "modern" =
      Except.error JsError.typeError ∧
    executeAdvancedSearchRaw
      { difficulties := [], technologies := [], tags := ["modern"], features := [] }
      1737000000000 [untaggedLandingPage] = Except.error JsError.typeError :=
  ⟨rfl, rfl⟩

/-- C21, amended: on records that carry `description`, `tags` and
`technologies`, `performAdvancedSearch` and `executeAdvancedSearch` return
without throwing, with the results computed from those fields;
`performAdvancedSearch` throws a `TypeError` as soon as some record lacks one
of the three fields, and `executeAdvancedSearch` throws one when a record that
passes the difficulty group lacks `technologies` while a technology is
selected, or lacks `tags` while a tag and no technology is selected; a missing
`downloads` counts as 0 in the filter. -/
theorem search_total_on_complete_records (toLowerCase : String → String)
    (templates : List Template) (query : String) (filters : AdvancedFilters) (now : Int) :
    performAdvancedSearchRaw toLowerCase (templates.map Template.toRaw) query =
      Except.ok ((performAdvancedSearch toLowerCase templates query).map fun result =>
        (result.template.toRaw, result.searchScore)) ∧
    executeAdvancedSearchRaw filters now (templates.map Template.toRaw) =
      Except.ok ((executeAdvancedSearch templates filters now).map Template.toRaw) ∧
    (∀ raws : List RawTemplate,
      (∃ template ∈ raws,
        template.description = none ∨ template.tags = none ∨ template.technologies = none) →
      performAdvancedSearchRaw toLowerCase raws query = Except.error JsError.typeError) ∧
    (∀ raws : List RawTemplate,
      (∃ template ∈ raws,
        (filters.difficulties = [] ∨ template.difficulty ∈ filters.difficulties) ∧
        filters.technologies ≠ [] ∧ template.technologies = none) →
      executeAdvancedSearchRaw filters now raws = Except.error JsError.typeError) ∧
    (∀ raws : List RawTemplate,
      (∃ template ∈ raws,
        (filters.difficulties = [] ∨ template.difficulty ∈ filters.difficulties) ∧
        filters.technologies = [] ∧ filters.tags ≠ [] ∧ template.tags = none) →
      executeAdvancedSearchRaw filters now raws = Except.error JsError.typeError) ∧
    (∀ raw : RawTemplate,
      passesFiltersRaw filters now { raw with downloads := none } =
        passesFiltersRaw filters now { raw with downloads := some 0 }) := by
  refine ⟨performAdvancedSearchRaw_toRaw _ _ _, executeAdvancedSearchRaw_toRaw _ _ _,
    fun raws h => ?_, fun raws h => executeAdvancedSearchRaw_missing _ _ _ h,
    fun raws h => executeAdvancedSearchRaw_missing_tags _ _ _ h, fun raw => rfl⟩
  unfold performAdvancedSearchRaw
  rw [scoreAllRaw_missing toLowerCase query _ raws h]

/-- C21, amended, on a catalogue with a record that lacks `technologies`:
the ranked search throws, and so does the advanced filter with the technology
`CSS` selected. -/
theorem search_total_on_complete_records_witness :
    performAdvancedSearchRaw asciiToLowerCase
      [plainPortfolio.toRaw, { specLandingPage.toRaw with technologies := none }] "modern" =
      Except.error JsError.typeError ∧
    executeAdvancedSearchRaw
      { difficulties := ["easy"], technologies := ["CSS"], tags := [], features := [] }
      1737000000000
      [plainPortfolio.toRaw, { specLandingPage.toRaw with technologies := none }] =
      Except.error JsError.typeError :=
  ⟨(search_total_on_complete_records asciiToLowerCase [] "modern"
      { difficulties := ["easy"], technologies := ["CSS"], tags := [], features := [] }
      1737000000000).2.2.1
      [plainPortfolio.toRaw, { specLandingPage.toRaw with technologies := none }]
      ⟨{ specLandingPage.toRaw with technologies := none }, by decide, Or.inr (Or.inr rfl)⟩,
   (search_total_on_complete_records asciiToLowerCase [] "modern"
      { difficulties := ["easy"], technologies := ["CSS"], tags := [], features := [] }
      1737000000000).2.2.2.1
      [plainPortfolio.toRaw, { specLandingPage.toRaw with technologies := none }]
      ⟨{ specLandingPage.toRaw with technologies := none }, by decide,
        Or.inr (by decide), by decide, rfl⟩⟩

theorem generateSuggestions_eq (toLowerCase : String → String) (templates : List Template)
    (categories : List Category) (searchHistory : List SearchHistoryItem) (query : String) :
    generateSuggestions toLowerCase templates categories searchHistory query =
      jsSort (compareSuggestions toLowerCase query)
        ((suggestionCandidates toLowerCase templates categories searchHistory query).take 10) :=
  rfl

theorem candidate_text_includes (toLowerCase : String → String) (templates : List Template)
    (categories : List Category) (searchHistory : List SearchHistoryItem) (query : String)
    (suggestion : Suggestion)
    (h : suggestion ∈ suggestionCandidates toLowerCase templates categories searchHistory query) :
    jsIncludes (toLowerCase suggestion.text) (toLowerCase query) = true := by
  unfold suggestionCandidates at h
  simp only [List.mem_append, List.mem_map, List.mem_filter] at h
  rcases h with (((⟨x, ⟨-, hx⟩, rfl⟩ | ⟨x, ⟨-, hx⟩, rfl⟩) | ⟨x, ⟨-, hx⟩, rfl⟩) |
    ⟨x, ⟨-, hx⟩, rfl⟩) | ⟨x, ⟨-, hx⟩, rfl⟩ <;> exact hx

/-- C23: `generateSuggestions` returns at most 10 suggestions, each of one of
the five types, and the lower-cased text of each contains the lower-cased
query. -/
theorem generateSuggestions_bounded (toLowerCase : String → String)
    (templates : List Template) (categories : List Category)
    (searchHistory : List SearchHistoryItem) (query : String) :
    (generateSuggestions toLowerCase templates categories searchHistory query).length ≤ 10 ∧
    ((generateSuggestions toLowerCase templates categories searchHistory query).all
      fun suggestion => jsIncludes (toLowerCase suggestion.text) (toLowerCase query)) = true ∧
    ((generateSuggestions toLowerCase templates categories searchHistory query).all
      fun suggestion =>
        decide (suggestion.type ∈ [SuggestionType.template, SuggestionType.category,
          SuggestionType.tag, SuggestionType.technology, SuggestionType.history])) = true := by
  rw [generateSuggestions_eq]
  refine ⟨?_, ?_, ?_⟩
  · unfold jsSort
    rw [List.length_insertionSort, List.length_take]
    exact Nat.min_le_left _ _
  · rw [List.all_eq_true]
    intro suggestion h
    rw [mem_jsSort] at h
    exact candidate_text_includes _ _ _ _ _ _ (List.mem_of_mem_take h)
  · rw [List.all_eq_true]
    intro suggestion _
    cases suggestion.type <;> decide

theorem compareSuggestions_total (toLowerCase : String → String) (query : String)
    (a b : Suggestion) :
    compareSuggestions toLowerCase query a b ≤ 0 ∨ compareSuggestions toLowerCase query b a ≤ 0 := by
  unfold compareSuggestions
  by_cases ha : toLowerCase a.text = toLowerCase query <;>
    by_cases hb : toLowerCase b.text = toLowerCase query <;>
    simp [ha, hb] <;> omega

theorem compareSuggestions_trans (toLowerCase : String → String) (query : String)
    (a b c : Suggestion) (hab : compareSuggestions toLowerCase query a b ≤ 0)
    (hbc : compareSuggestions toLowerCase query b c ≤ 0) :
    compareSuggestions toLowerCase query a c ≤ 0 := by
  unfold compareSuggestions at hab hbc ⊢
  by_cases ha : toLowerCase a.text = toLowerCase query <;>
    by_cases hb : toLowerCase b.text = toLowerCase query <;>
    by_cases hc : toLowerCase c.text = toLowerCase query <;>
    simp [ha, hb, hc] at hab hbc ⊢ <;> omega

theorem compareSuggestions_le (toLowerCase : String → String) (query : String)
    (a b : Suggestion) (hab : compareSuggestions toLowerCase query a b ≤ 0) :
    (toLowerCase b.text = toLowerCase query → toLowerCase a.text = toLowerCase query) ∧
    ((toLowerCase a.text = toLowerCase query ↔ toLowerCase b.text = toLowerCase query) →
      typePriority a.type ≤ typePriority b.type) := by
  unfold compareSuggestions at hab
  by_cases ha : toLowerCase a.text = toLowerCase query <;>
    by_cases hb : toLowerCase b.text = toLowerCase query <;>
    simp [ha, hb] at hab ⊢ <;> omega

/-- C24 as stated fails when the exact match is not among the first ten
candidates: ten template names contain `blog` and the category name `Blog`
equals the query, yet `generateSuggestions` returns the ten template names
and no exact match. -/
theorem exact_match_cut_off :
    ((suggestionCandidates asciiToLowerCase tenBlogTemplates
      [{ id := "blogs", name := "Blog" }] [] "blog").any fun suggestion =>
        decide (asciiToLowerCase suggestion.text = asciiToLowerCase "blog")) = true ∧
    (generateSuggestions asciiToLowerCase tenBlogTemplates
      [{ id := "blogs", name := "Blog" }] [] "blog").map (fun suggestion => suggestion.text) =
      ["Blog A", "Blog B", "Blog C", "Blog D", "Blog E", "Blog F", "Blog G", "Blog H",
       "Blog I", "Blog J"] ∧
    ((generateSuggestions asciiToLowerCase tenBlogTemplates
      [{ id := "blogs", name := "Blog" }] [] "blog").any fun suggestion =>
        decide (asciiToLowerCase suggestion.text = asciiToLowerCase "blog")) = false := by
  decide

/-- C24, amended: in the list returned by `generateSuggestions` every exact
match precedes every other suggestion, and among the exact matches and among
the others the suggestions are in the order of the type priority; when one of
the first ten candidates is an exact match, the list starts with an exact
match. -/
theorem suggestions_exact_first (toLowerCase : String → String) (templates : List Template)
    (categories : List Category) (searchHistory : List SearchHistoryItem) (query : String) :
    (generateSuggestions toLowerCase templates categories searchHistory query).Pairwise
      (fun a b =>
        (toLowerCase b.text = toLowerCase query → toLowerCase a.text = toLowerCase query) ∧
        ((toLowerCase a.text = toLowerCase query ↔ toLowerCase b.text = toLowerCase query) →
          typePriority a.type ≤ typePriority b.type)) ∧
    ((((suggestionCandidates toLowerCase templates categories searchHistory query).take 10).any
        fun suggestion => decide (toLowerCase suggestion.text = toLowerCase query)) = true →
      ∃ first,
        (generateSuggestions toLowerCase templates categories searchHistory query).head? =
          some first ∧
        toLowerCase first.text = toLowerCase query) := by
  have hsorted : (generateSuggestions toLowerCase templates categories searchHistory
      query).Pairwise fun a b => compareSuggestions toLowerCase query a b ≤ 0 := by
    rw [generateSuggestions_eq]
    exact TemplateManager.sorted_jsSort_of_compare _ (compareSuggestions_total toLowerCase query)
      (compareSuggestions_trans toLowerCase query) _
  have hpair := hsorted.imp fun {a b} hab => compareSuggestions_le toLowerCase query a b hab
  refine ⟨hpair, fun hany => ?_⟩
  rw [List.any_eq_true] at hany
  obtain ⟨x, hx, hexact⟩ := hany
  have hexact' : toLowerCase x.text = toLowerCase query := by simpa using hexact
  have hmem : x ∈ generateSuggestions toLowerCase templates categories searchHistory query := by
    rw [generateSuggestions_eq, mem_jsSort]
    exact hx
  cases hres : generateSuggestions toLowerCase templates categories searchHistory query with
  | nil => rw [hres] at hmem; cases hmem
  | cons first rest =>
    refine ⟨first, rfl, ?_⟩
    rw [hres] at hmem hpair
    rcases List.mem_cons.1 hmem with rfl | hrest
    · exact hexact'
    · exact ((List.pairwise_cons.1 hpair).1 x hrest).1 hexact'

/-- C24, amended, on the query `portfolio`: the category named Portfolio and
the tag `portfolio` are exact matches among the candidates, and the returned
list starts with an exact match. -/
theorem suggestions_exact_first_witness :
    ∃ first,
      (generateSuggestions asciiToLowerCase [specLandingPage, plainPortfolio]
        [{ id := "portfolios", name := "Portfolio" }] [] "portfolio").head? = some first ∧
      asciiToLowerCase first.text = asciiToLowerCase "portfolio" :=
  (suggestions_exact_first asciiToLowerCase [specLandingPage, plainPortfolio]
    [{ id := "portfolios", name := "Portfolio" }] [] "portfolio").2 (by decide)

end SearchManager

namespace RatingSystem

theorem afterSubmitRatingOn_nodeList (s : RatingSystem) (templateId : TemplateId)
    (active : List Bool) (reviewValue now : String) :
    s.afterSubmitRatingOn templateId
      { starBtns := StarButtons.nodeList active, reviewValue := reviewValue } now = s := rfl

theorem deleteRating_of_no_rating (s : RatingSystem) (templateId : TemplateId)
    (h : s.userRatings templateId = none) : s.deleteRating templateId = s := by
  simp [deleteRating, getUserRating, h, truthyRating]

/-- C4 on a direct call: the store holds a four-star rating of the user for
`modern-landing` and no aggregate; after `updateTemplateRating` with 4 the
aggregate has `totalVotes` 0 and the stored average is `NaN` (0 / 0), after
`updateTemplateRating` with 5 it has `totalVotes` 0 and the stored average is
`Infinity` (1 / 0); the claim's guarded average is 0. -/
theorem average_unguarded_after_update :
    orphanRatingStore.getUserRating "modern-landing" = some 4 ∧
    (orphanRatingStore.ratings "modern-landing").isNone = true ∧
    (((orphanRatingStore.updateTemplateRating "modern-landing" 4).ratings
      "modern-landing").map fun a => (a.totalRating, a.totalVotes, a.average)) =
      some (0, 0, JsNumber.nan) ∧
    (((orphanRatingStore.updateTemplateRating "modern-landing" 5).ratings
      "modern-landing").map fun a => (a.totalRating, a.totalVotes, a.average)) =
      some (1, 0, JsNumber.posInfinity) ∧
    JsNumber.nan ≠ JsNumber.finite 0 ∧ JsNumber.posInfinity ≠ JsNumber.finite 0 := by
  decide

/-- C5 on the modal element of the page: with one, with five and with none of
the five star buttons active, `submitRating` throws a `TypeError` at the
reading of the rating; afterwards the user holds no rating and no
notification, neither the success message nor the warning, has been shown. -/
theorem submit_on_modal_throws :
    (emptyStore "user_a").submitRatingOn "modern-landing" (shownModal 1 "") "t0" =
      Except.error JsError.typeError ∧
    (emptyStore "user_a").submitRatingOn "modern-landing" (shownModal 5 "") "t0" =
      Except.error JsError.typeError ∧
    (emptyStore "user_a").submitRatingOn "modern-landing" (shownModal 0 "") "t0" =
      Except.error JsError.typeError ∧
    ((emptyStore "user_a").afterSubmitRatingOn "modern-landing" (shownModal 1 "")
      "t0").getUserRating "modern-landing" = none ∧
    ((emptyStore "user_a").afterSubmitRatingOn "modern-landing" (shownModal 5 "")
      "t0").getUserRating "modern-landing" = none ∧
    ((emptyStore "user_a").afterSubmitRatingOn "modern-landing" (shownModal 1 "")
      "t0").shown = [] ∧
    ((emptyStore "user_a").afterSubmitRatingOn "modern-landing" (shownModal 0 "")
      "t0").shown = [] :=
  ⟨rfl, rfl, rfl, by decide, by decide, by decide, by decide⟩

/-- C9: for every store in which the current user has not rated the template,
`submitRating` on a modal element (whatever star buttons are active, whatever
the review text) followed by `deleteRating` for the same template leaves the
template's aggregate, and the whole store, exactly as before the submission:
the submission throws before it stores anything and the deletion finds no
rating. -/
theorem submit_then_delete_restores (s : RatingSystem) (templateId : TemplateId)
    (active : List Bool) (reviewValue now : String)
    (h : s.userRatings templateId = none) :
    ((s.afterSubmitRatingOn templateId
        { starBtns := StarButtons.nodeList active, reviewValue := reviewValue }
        now).deleteRating templateId).ratings templateId = s.ratings templateId ∧
    (s.afterSubmitRatingOn templateId
        { starBtns := StarButtons.nodeList active, reviewValue := reviewValue }
        now).deleteRating templateId = s := by
  rw [afterSubmitRatingOn_nodeList, deleteRating_of_no_rating s templateId h]
  exact ⟨rfl, rfl⟩

/-- C9 at the store with one foreign three-star vote for `modern-landing`:
five stars submitted on the modal and deleted. -/
theorem submit_then_delete_restores_witness :
    visitorStore.userRatings "modern-landing" = none ∧
    ((visitorStore.afterSubmitRatingOn "modern-landing" (shownModal 5 "")
      "t0").deleteRating "modern-landing").ratings "modern-landing" =
      visitorStore.ratings "modern-landing" :=
  ⟨rfl,
   (submit_then_delete_restores visitorStore "modern-landing" (starModal 5 "").starBtns ""
      "t0" rfl).1⟩

/-- C11 on the modal element of the page: the user holds no rating for
`modern-landing`, four of the five star buttons are active, and after
`submitRating` `getUserRating` still returns `null` (the claim: 4); on the
store where the user holds three stars a submission of five leaves 3 (the
claim: 5); `deleteRating` on that store makes `getUserRating` return
`null`. -/
theorem submit_on_modal_leaves_rating :
    (emptyStore "user_a").getUserRating "modern-landing" = none ∧
    ((emptyStore "user_a").afterSubmitRatingOn "modern-landing" (shownModal 4 "")
      "t0").getUserRating "modern-landing" = none ∧
    ratedStore.getUserRating "modern-landing" = some 3 ∧
    (ratedStore.afterSubmitRatingOn "modern-landing" (shownModal 5 "")
      "t1").getUserRating "modern-landing" = some 3 ∧
    (ratedStore.deleteRating "modern-landing").getUserRating "modern-landing" = none := by
  decide

/-- C27: every store reachable from the empty store through `submitRating` on
a modal element with one to five stars active and `deleteRating` has only
aggregates with non-negative `totalVotes`, `totalRating` and distribution
counts; its rating table and its user ratings are those of the empty store,
since every submission throws before it stores anything. -/
theorem reachable_counters_nonnegative (userId : String) (s : RatingSystem)
    (h : Reachable userId s) :
    s.CountersNonNegative ∧ s.ratings = (emptyStore userId).ratings ∧
      s.userRatings = (emptyStore userId).userRatings := by
  have key : s.ratings = (emptyStore userId).ratings ∧
      s.userRatings = (emptyStore userId).userRatings := by
    induction h with
    | empty => exact ⟨rfl, rfl⟩
    | submit s templateId active reviewValue now _ _ _ ih =>
      rw [afterSubmitRatingOn_nodeList]
      exact ih
    | delete s templateId _ ih =>
      have hnone : s.userRatings templateId = none := by rw [ih.2]; rfl
      rw [deleteRating_of_no_rating s templateId hnone]
      exact ih
  refine ⟨?_, key⟩
  intro templateId a ha
  rw [key.1] at ha
  cases ha

/-- C27 at the store reached by submitting five stars for `blog-starter` on
the modal and deleting the rating. -/
theorem reachable_counters_nonnegative_witness :
    Reachable "user_a"
      (((emptyStore "user_a").afterSubmitRatingOn "blog-starter" (shownModal 5 "")
        "t0").deleteRating "blog-starter") ∧
    (((emptyStore "user_a").afterSubmitRatingOn "blog-starter" (shownModal 5 "")
        "t0").deleteRating "blog-starter").CountersNonNegative :=
  ⟨Reachable.delete _ _
      (Reachable.submit _ _ (starModal 5 "").starBtns "" "t0" Reachable.empty
        (by decide) (by decide)),
   (reachable_counters_nonnegative "user_a" _
      (Reachable.delete _ _
        (Reachable.submit _ _ (starModal 5 "").starBtns "" "t0" Reachable.empty
          (by decide) (by decide)))).1⟩

end RatingSystem
